import Mathlib

/-!
# Shift-inversion engine of the ergoDOX Workman-P layout

A shallow embedding of the two key functions defined in
`src/keyboard/ergodox/layout/workman-p-kinesis-mod.c`
(`kbfun_shift_inverted_press_release` and
`kbfun_press_release_supporting_shift_inversion`) together with their two
private helpers, and the properties of the resulting state machine.

The three file-level statics of the C file become the first three fields of
`KB`.  The calls made to the HID collaborator are recorded, oldest first, in
the fourth field, so that the order of the emitted events can be stated.
The counter is a `uint8_t` in C: it is a `Nat` here and the one place where it
grows reduces modulo `2 ^ 8`.
-/

namespace Ergodox

/-! ## Keycodes -/

/-- Modelled from the spec: the header `keyboard--short-names.h` is not part of
the sources, so the four keycodes the handlers compare against are given the
values of the USB HID keyboard usage page (Left Shift `0xE1`). -/
def KEY_LeftShift : Nat := 0xE1

/-- Modelled from the spec: USB HID usage of Right Shift (`0xE5`), see
`KEY_LeftShift`. -/
def KEY_RightShift : Nat := 0xE5

/-- Modelled from the spec: USB HID usage of Caps Lock (`0x39`), see
`KEY_LeftShift`. -/
def KEY_CapsLock : Nat := 0x39

/-- Modelled from the spec: USB HID usage of keypad Num Lock / Clear (`0x53`),
see `KEY_LeftShift`. -/
def KEYPAD_NumLock_Clear : Nat := 0x53

/-- Modelled from the spec: USB HID usage of the `1 !` key (`0x1E`), one of the
ten keys the layout marks as inverted; used in examples only. -/
def KEY_1_Exclamation : Nat := 0x1E

/-- Modelled from the spec: USB HID usage of the `q Q` key (`0x14`), an ordinary
key; used in examples only. -/
def KEY_q_Q : Nat := 0x14

/-! ## State -/

/-- One call `emit(pressed, keycode)` to the HID collaborator. -/
structure Emit where
  pressed : Bool
  keycode : Nat
deriving DecidableEq, Repr

/-- The statics of the C file (`inverted_keys_pressed`,
`physical_lshift_pressed`, `physical_rshift_pressed`) and the log of the calls
made to `_kbfun_press_release`, oldest first. -/
structure KB where
  inverted_keys_pressed : Nat
  physical_lshift_pressed : Bool
  physical_rshift_pressed : Bool
  emitted : List Emit
deriving DecidableEq, Repr

/-- The state at power-on: C zero-initialises the statics, nothing was emitted
yet. -/
def init : KB :=
  { inverted_keys_pressed := 0
    physical_lshift_pressed := false
    physical_rshift_pressed := false
    emitted := [] }

/-! ## Private functions -/

/-- Modelled from the spec: `_kbfun_press_release(press, keycode)` lives in
`lib/key-functions/private.c`, which is not part of the sources.  The spec
describes it as `emit(pressed, keycode)`, one call per logical key state
change; here it appends that call to the log. -/
def _kbfun_press_release (press : Bool) (keycode : Nat) (s : KB) : KB :=
  { s with emitted := s.emitted ++ [⟨press, keycode⟩] }

/-- The C function `_kbfun_invert_shift_state`: Left Shift gets the inverted
shift state, Right Shift is released. -/
def _kbfun_invert_shift_state (s : KB) : KB :=
  let s1 := _kbfun_press_release
    (!(s.physical_lshift_pressed || s.physical_rshift_pressed)) KEY_LeftShift s
  _kbfun_press_release false KEY_RightShift s1

/-- The C function `_kbfun_restore_shift_state`: both Shift keys get their
physical state. -/
def _kbfun_restore_shift_state (s : KB) : KB :=
  let s1 := _kbfun_press_release s.physical_lshift_pressed KEY_LeftShift s
  _kbfun_press_release s1.physical_rshift_pressed KEY_RightShift s1

/-! ## Public functions

`IS_PRESSED` and the keycode `kb_layout_get(LAYER, ROW, COL)` of the position
the event is for are the two arguments `is_pressed` and `keycode`. -/

/-- Modelled from the spec: `kbfun_press_release` lives in
`lib/key-functions/public/basic.c`, which is not part of the sources.  The spec
says it emits the press or release of the key of the current position. -/
def kbfun_press_release (is_pressed : Bool) (keycode : Nat) (s : KB) : KB :=
  _kbfun_press_release is_pressed keycode s

/-- The C function `kbfun_shift_inverted_press_release` (key function
`sinvert`). -/
def kbfun_shift_inverted_press_release (is_pressed : Bool) (keycode : Nat)
    (s : KB) : KB :=
  let s1 :=
    if is_pressed then
      _kbfun_invert_shift_state
        { s with inverted_keys_pressed := (s.inverted_keys_pressed + 1) % 256 }
    else s
  let s2 := kbfun_press_release is_pressed keycode s1
  if !is_pressed then
    let s3 :=
      if s2.inverted_keys_pressed = 1 then _kbfun_restore_shift_state s2 else s2
    if s3.inverted_keys_pressed ≠ 0 then
      { s3 with inverted_keys_pressed := s3.inverted_keys_pressed - 1 }
    else s3
  else s2

/-- The C function `kbfun_press_release_supporting_shift_inversion` (key
function `kprrel`).  The `switch` is the chain of comparisons; the two Shift
cases `break` to the code after the `switch`, the others `return`. -/
def kbfun_press_release_supporting_shift_inversion (is_pressed : Bool)
    (keycode : Nat) (s : KB) : KB :=
  if keycode = KEY_LeftShift ∨ keycode = KEY_RightShift then
    let s1 :=
      if keycode = KEY_LeftShift then
        { s with physical_lshift_pressed := is_pressed }
      else
        { s with physical_rshift_pressed := is_pressed }
    if s1.inverted_keys_pressed ≠ 0 then
      _kbfun_invert_shift_state s1
    else
      kbfun_press_release is_pressed keycode s1
  else if keycode = KEY_CapsLock ∨ keycode = KEYPAD_NumLock_Clear then
    kbfun_press_release is_pressed keycode s
  else
    let s1 :=
      if s.inverted_keys_pressed ≠ 0 then
        _kbfun_restore_shift_state { s with inverted_keys_pressed := 0 }
      else s
    kbfun_press_release is_pressed keycode s1

/-! ## Events and runs -/

/-- The two key functions of the engine, as the layout tables name them. -/
inductive Handler where
  | sinvert
  | kprrel
deriving DecidableEq, Repr

/-- One scan event: the key function the table holds for the position, the
value of `IS_PRESSED`, the keycode of the position and the physical key
(matrix position) the event is for. -/
structure Event where
  handler : Handler
  is_pressed : Bool
  keycode : Nat
  key : Nat
deriving DecidableEq, Repr

/-- Dispatch of one event to its key function. -/
def step (s : KB) (e : Event) : KB :=
  match e.handler with
  | Handler.sinvert => kbfun_shift_inverted_press_release e.is_pressed e.keycode s
  | Handler.kprrel =>
      kbfun_press_release_supporting_shift_inversion e.is_pressed e.keycode s

/-- The events are handled one at a time, each to completion. -/
def run (s : KB) (es : List Event) : KB :=
  es.foldl step s

/-! ## The emitted state of a key -/

/-- Effect of one emitted call on the state of key `k`: a call for `k` sets it,
a call for another key leaves it. -/
def apply_emit (k : Nat) (cur : Bool) (e : Emit) : Bool :=
  if e.keycode = k then e.pressed else cur

/-- State of key `k` as the HID collaborator sees it after the calls of `log`,
starting from released. -/
def line_state (k : Nat) (log : List Emit) : Bool :=
  log.foldl (apply_emit k) false

/-- Emitted state of Left Shift. -/
def lshift_line (s : KB) : Bool := line_state KEY_LeftShift s.emitted

/-- Emitted state of Right Shift. -/
def rshift_line (s : KB) : Bool := line_state KEY_RightShift s.emitted

/-- The calls a step appends to the log. -/
def step_output (s : KB) (e : Event) : List Emit :=
  (step s e).emitted.drop s.emitted.length

/-- The two calls of `_kbfun_restore_shift_state` for the given physical
state: Left Shift, then Right Shift, each with its physical value. -/
def restore_pair (l r : Bool) : List Emit :=
  [⟨l, KEY_LeftShift⟩, ⟨r, KEY_RightShift⟩]

/-- The two calls of `_kbfun_invert_shift_state` for the given physical
state: Left Shift pressed iff neither Shift is held, then Right Shift
released. -/
def invert_pair (l r : Bool) : List Emit :=
  [⟨!(l || r), KEY_LeftShift⟩, ⟨false, KEY_RightShift⟩]

/-- The Shift lines are in the forced inverted state. -/
def forced (s : KB) : Prop :=
  lshift_line s = !(s.physical_lshift_pressed || s.physical_rshift_pressed)
    ∧ rshift_line s = false

/-- The Shift lines show the physical state of the two Shift keys. -/
def physical (s : KB) : Prop :=
  lshift_line s = s.physical_lshift_pressed
    ∧ rshift_line s = s.physical_rshift_pressed

/-- The invariant of the data model: forced inverted lines while the counter
is positive, physical lines while it is zero. -/
def shift_invariant (s : KB) : Prop :=
  (0 < s.inverted_keys_pressed → forced s)
    ∧ (s.inverted_keys_pressed = 0 → physical s)

instance (s : KB) : Decidable (forced s) := by
  unfold forced; infer_instance

instance (s : KB) : Decidable (physical s) := by
  unfold physical; infer_instance

instance (s : KB) : Decidable (shift_invariant s) := by
  unfold shift_invariant; infer_instance

/-! ## Held keys and conditions on a sequence of events -/

/-- Effect of one event on the list of inverted keys that are held: a press
handled by `sinvert` adds its key, a release handled by `sinvert` removes it,
an event of the other key function leaves the list. -/
def held_step (h : List Nat) (e : Event) : List Nat :=
  match e.handler with
  | Handler.sinvert => if e.is_pressed then e.key :: h else h.erase e.key
  | Handler.kprrel => h

/-- The inverted keys held after the events `es`, starting from the held keys
`h`. -/
def held_from (h : List Nat) (es : List Event) : List Nat :=
  es.foldl held_step h

/-- The inverted keys that were pressed and whose release was not yet
processed, after the events `es` from power-on. -/
def held_inverted (es : List Event) : List Nat :=
  held_from [] es

/-- Every event of the list satisfies `p` in the context it arrives in: the
state of the engine and the inverted keys held just before it. -/
def along (p : KB → List Nat → Event → Prop) : KB → List Nat → List Event → Prop
  | _, _, [] => True
  | s, h, e :: es => p s h e ∧ along p (step s e) (held_step h e) es

/-- Decision procedure for `along`. -/
def along_decidable (p : KB → List Nat → Event → Prop)
    [inst : ∀ s h e, Decidable (p s h e)] :
    ∀ s h es, Decidable (along p s h es)
  | _, _, [] => isTrue trivial
  | s, h, e :: es =>
    match inst s h e, along_decidable p (step s e) (held_step h e) es with
    | isTrue hp, isTrue hs => isTrue ⟨hp, hs⟩
    | isFalse hp, _ => isFalse (fun hc => hp hc.1)
    | _, isFalse hs => isFalse (fun hc => hs hc.2)

instance (p : KB → List Nat → Event → Prop) [∀ s h e, Decidable (p s h e)]
    (s : KB) (h : List Nat) (es : List Event) : Decidable (along p s h es) :=
  along_decidable p s h es

/-- The event is a transition of its key: an inverted key is pressed only
while it is not held and released only while it is held. -/
def matched (_s : KB) (h : List Nat) (e : Event) : Prop :=
  e.handler = Handler.sinvert →
    (e.is_pressed = true → e.key ∉ h) ∧ (e.is_pressed = false → e.key ∈ h)

/-- The event does not take the 8-bit counter past its maximum: it is not the
press of an inverted key at counter 255. -/
def below_limit (s : KB) (_h : List Nat) (e : Event) : Prop :=
  ¬ (e.handler = Handler.sinvert ∧ e.is_pressed = true
      ∧ s.inverted_keys_pressed = 255)

/-- After the event fewer than 256 inverted keys are held. -/
def within_capacity (_s : KB) (h : List Nat) (e : Event) : Prop :=
  (held_step h e).length < 256

/-- The event is one of an ordinary key: handled by `kprrel`, with a keycode
other than the two Shift keys, Caps Lock and Num Lock (the `default` case of
the `switch`). -/
def ordinary (e : Event) : Prop :=
  e.handler = Handler.kprrel ∧ e.keycode ≠ KEY_LeftShift
    ∧ e.keycode ≠ KEY_RightShift ∧ e.keycode ≠ KEY_CapsLock
    ∧ e.keycode ≠ KEYPAD_NumLock_Clear

/-- An event of an ordinary key arrives only while no inverted key is
held. -/
def no_correction (_s : KB) (h : List Nat) (e : Event) : Prop :=
  ordinary e → h = []

/-- The keycode of an inverted key is not one of the two Shift keys. -/
def inverted_not_shift (e : Event) : Prop :=
  e.handler = Handler.sinvert →
    e.keycode ≠ KEY_LeftShift ∧ e.keycode ≠ KEY_RightShift

/-- The step calls `_kbfun_restore_shift_state`: its output holds the two
calls that give Left Shift and Right Shift their physical state. -/
def restore_emitted (s : KB) (e : Event) : Prop :=
  restore_pair (step s e).physical_lshift_pressed
    (step s e).physical_rshift_pressed <:+: step_output s e

instance (s : KB) (h : List Nat) (e : Event) : Decidable (matched s h e) := by
  unfold matched; infer_instance

instance (s : KB) (h : List Nat) (e : Event) : Decidable (below_limit s h e) := by
  unfold below_limit; infer_instance

instance (s : KB) (h : List Nat) (e : Event) :
    Decidable (within_capacity s h e) := by
  unfold within_capacity; infer_instance

instance (e : Event) : Decidable (ordinary e) := by
  unfold ordinary; infer_instance

instance (s : KB) (h : List Nat) (e : Event) :
    Decidable (no_correction s h e) := by
  unfold no_correction; infer_instance

instance (e : Event) : Decidable (inverted_not_shift e) := by
  unfold inverted_not_shift; infer_instance

instance (s : KB) (e : Event) : Decidable (restore_emitted s e) := by
  unfold restore_emitted; infer_instance

/-- A press of the inverted key `key` with keycode `keycode`. -/
def inv_press (keycode key : Nat) : Event :=
  { handler := Handler.sinvert, is_pressed := true, keycode := keycode, key := key }

/-- A release of the inverted key `key` with keycode `keycode`. -/
def inv_release (keycode key : Nat) : Event :=
  { handler := Handler.sinvert, is_pressed := false, keycode := keycode, key := key }

/-- A press of the key `key` with keycode `keycode`, handled by `kprrel`. -/
def key_press (keycode key : Nat) : Event :=
  { handler := Handler.kprrel, is_pressed := true, keycode := keycode, key := key }

/-- A release of the key `key` with keycode `keycode`, handled by `kprrel`. -/
def key_release (keycode key : Nat) : Event :=
  { handler := Handler.kprrel, is_pressed := false, keycode := keycode, key := key }

/-- Presses of the inverted keys `0 .. n - 1`, in this order, all with the
keycode of the `1 !` key. -/
def press_many (n : Nat) : List Event :=
  (List.range n).map (inv_press KEY_1_Exclamation)

/-- The counter agrees with the list of held inverted keys: it is the number
of keys of the list, and no key is listed twice. -/
def in_sync (s : KB) (h : List Nat) : Prop :=
  s.inverted_keys_pressed = h.length ∧ h.Nodup

/-! ## Keycodes of the layout

The keycodes the layout table names besides the ones above. -/

/-- Modelled from the spec: USB HID keyboard usage `0x04` (the keycode header is
not part of the sources). -/
def KEY_a_A : Nat := 0x04

/-- Modelled from the spec: USB HID keyboard usage `0x05` (the keycode header is
not part of the sources). -/
def KEY_b_B : Nat := 0x05

/-- Modelled from the spec: USB HID keyboard usage `0x06` (the keycode header is
not part of the sources). -/
def KEY_c_C : Nat := 0x06

/-- Modelled from the spec: USB HID keyboard usage `0x07` (the keycode header is
not part of the sources). -/
def KEY_d_D : Nat := 0x07

/-- Modelled from the spec: USB HID keyboard usage `0x08` (the keycode header is
not part of the sources). -/
def KEY_e_E : Nat := 0x08

/-- Modelled from the spec: USB HID keyboard usage `0x09` (the keycode header is
not part of the sources). -/
def KEY_f_F : Nat := 0x09

/-- Modelled from the spec: USB HID keyboard usage `0x0A` (the keycode header is
not part of the sources). -/
def KEY_g_G : Nat := 0x0A

/-- Modelled from the spec: USB HID keyboard usage `0x0B` (the keycode header is
not part of the sources). -/
def KEY_h_H : Nat := 0x0B

/-- Modelled from the spec: USB HID keyboard usage `0x0C` (the keycode header is
not part of the sources). -/
def KEY_i_I : Nat := 0x0C

/-- Modelled from the spec: USB HID keyboard usage `0x0D` (the keycode header is
not part of the sources). -/
def KEY_j_J : Nat := 0x0D

/-- Modelled from the spec: USB HID keyboard usage `0x0E` (the keycode header is
not part of the sources). -/
def KEY_k_K : Nat := 0x0E

/-- Modelled from the spec: USB HID keyboard usage `0x0F` (the keycode header is
not part of the sources). -/
def KEY_l_L : Nat := 0x0F

/-- Modelled from the spec: USB HID keyboard usage `0x10` (the keycode header is
not part of the sources). -/
def KEY_m_M : Nat := 0x10

/-- Modelled from the spec: USB HID keyboard usage `0x11` (the keycode header is
not part of the sources). -/
def KEY_n_N : Nat := 0x11

/-- Modelled from the spec: USB HID keyboard usage `0x12` (the keycode header is
not part of the sources). -/
def KEY_o_O : Nat := 0x12

/-- Modelled from the spec: USB HID keyboard usage `0x13` (the keycode header is
not part of the sources). -/
def KEY_p_P : Nat := 0x13

/-- Modelled from the spec: USB HID keyboard usage `0x15` (the keycode header is
not part of the sources). -/
def KEY_r_R : Nat := 0x15

/-- Modelled from the spec: USB HID keyboard usage `0x16` (the keycode header is
not part of the sources). -/
def KEY_s_S : Nat := 0x16

/-- Modelled from the spec: USB HID keyboard usage `0x17` (the keycode header is
not part of the sources). -/
def KEY_t_T : Nat := 0x17

/-- Modelled from the spec: USB HID keyboard usage `0x18` (the keycode header is
not part of the sources). -/
def KEY_u_U : Nat := 0x18

/-- Modelled from the spec: USB HID keyboard usage `0x19` (the keycode header is
not part of the sources). -/
def KEY_v_V : Nat := 0x19

/-- Modelled from the spec: USB HID keyboard usage `0x1A` (the keycode header is
not part of the sources). -/
def KEY_w_W : Nat := 0x1A

/-- Modelled from the spec: USB HID keyboard usage `0x1B` (the keycode header is
not part of the sources). -/
def KEY_x_X : Nat := 0x1B

/-- Modelled from the spec: USB HID keyboard usage `0x1C` (the keycode header is
not part of the sources). -/
def KEY_y_Y : Nat := 0x1C

/-- Modelled from the spec: USB HID keyboard usage `0x1D` (the keycode header is
not part of the sources). -/
def KEY_z_Z : Nat := 0x1D

/-- Modelled from the spec: USB HID keyboard usage `0x1F` (the keycode header is
not part of the sources). -/
def KEY_2_At : Nat := 0x1F

/-- Modelled from the spec: USB HID keyboard usage `0x20` (the keycode header is
not part of the sources). -/
def KEY_3_Pound : Nat := 0x20

/-- Modelled from the spec: USB HID keyboard usage `0x21` (the keycode header is
not part of the sources). -/
def KEY_4_Dollar : Nat := 0x21

/-- Modelled from the spec: USB HID keyboard usage `0x22` (the keycode header is
not part of the sources). -/
def KEY_5_Percent : Nat := 0x22

/-- Modelled from the spec: USB HID keyboard usage `0x23` (the keycode header is
not part of the sources). -/
def KEY_6_Caret : Nat := 0x23

/-- Modelled from the spec: USB HID keyboard usage `0x24` (the keycode header is
not part of the sources). -/
def KEY_7_Ampersand : Nat := 0x24

/-- Modelled from the spec: USB HID keyboard usage `0x25` (the keycode header is
not part of the sources). -/
def KEY_8_Asterisk : Nat := 0x25

/-- Modelled from the spec: USB HID keyboard usage `0x26` (the keycode header is
not part of the sources). -/
def KEY_9_LeftParenthesis : Nat := 0x26

/-- Modelled from the spec: USB HID keyboard usage `0x27` (the keycode header is
not part of the sources). -/
def KEY_0_RightParenthesis : Nat := 0x27

/-- Modelled from the spec: USB HID keyboard usage `0x28` (the keycode header is
not part of the sources). -/
def KEY_ReturnEnter : Nat := 0x28

/-- Modelled from the spec: USB HID keyboard usage `0x29` (the keycode header is
not part of the sources). -/
def KEY_Escape : Nat := 0x29

/-- Modelled from the spec: USB HID keyboard usage `0x2A` (the keycode header is
not part of the sources). -/
def KEY_DeleteBackspace : Nat := 0x2A

/-- Modelled from the spec: USB HID keyboard usage `0x2B` (the keycode header is
not part of the sources). -/
def KEY_Tab : Nat := 0x2B

/-- Modelled from the spec: USB HID keyboard usage `0x2C` (the keycode header is
not part of the sources). -/
def KEY_Spacebar : Nat := 0x2C

/-- Modelled from the spec: USB HID keyboard usage `0x2D` (the keycode header is
not part of the sources). -/
def KEY_Dash_Underscore : Nat := 0x2D

/-- Modelled from the spec: USB HID keyboard usage `0x2E` (the keycode header is
not part of the sources). -/
def KEY_Equal_Plus : Nat := 0x2E

/-- Modelled from the spec: USB HID keyboard usage `0x2F` (the keycode header is
not part of the sources). -/
def KEY_LeftBracket_LeftBrace : Nat := 0x2F

/-- Modelled from the spec: USB HID keyboard usage `0x30` (the keycode header is
not part of the sources). -/
def KEY_RightBracket_RightBrace : Nat := 0x30

/-- Modelled from the spec: USB HID keyboard usage `0x31` (the keycode header is
not part of the sources). -/
def KEY_Backslash_Pipe : Nat := 0x31

/-- Modelled from the spec: USB HID keyboard usage `0x33` (the keycode header is
not part of the sources). -/
def KEY_Semicolon_Colon : Nat := 0x33

/-- Modelled from the spec: USB HID keyboard usage `0x34` (the keycode header is
not part of the sources). -/
def KEY_SingleQuote_DoubleQuote : Nat := 0x34

/-- Modelled from the spec: USB HID keyboard usage `0x35` (the keycode header is
not part of the sources). -/
def KEY_GraveAccent_Tilde : Nat := 0x35

/-- Modelled from the spec: USB HID keyboard usage `0x36` (the keycode header is
not part of the sources). -/
def KEY_Comma_LessThan : Nat := 0x36

/-- Modelled from the spec: USB HID keyboard usage `0x37` (the keycode header is
not part of the sources). -/
def KEY_Period_GreaterThan : Nat := 0x37

/-- Modelled from the spec: USB HID keyboard usage `0x38` (the keycode header is
not part of the sources). -/
def KEY_Slash_Question : Nat := 0x38

/-- Modelled from the spec: USB HID keyboard usage `0x3A` (the keycode header is
not part of the sources). -/
def KEY_F1 : Nat := 0x3A

/-- Modelled from the spec: USB HID keyboard usage `0x3B` (the keycode header is
not part of the sources). -/
def KEY_F2 : Nat := 0x3B

/-- Modelled from the spec: USB HID keyboard usage `0x3C` (the keycode header is
not part of the sources). -/
def KEY_F3 : Nat := 0x3C

/-- Modelled from the spec: USB HID keyboard usage `0x3D` (the keycode header is
not part of the sources). -/
def KEY_F4 : Nat := 0x3D

/-- Modelled from the spec: USB HID keyboard usage `0x3E` (the keycode header is
not part of the sources). -/
def KEY_F5 : Nat := 0x3E

/-- Modelled from the spec: USB HID keyboard usage `0x3F` (the keycode header is
not part of the sources). -/
def KEY_F6 : Nat := 0x3F

/-- Modelled from the spec: USB HID keyboard usage `0x40` (the keycode header is
not part of the sources). -/
def KEY_F7 : Nat := 0x40

/-- Modelled from the spec: USB HID keyboard usage `0x41` (the keycode header is
not part of the sources). -/
def KEY_F8 : Nat := 0x41

/-- Modelled from the spec: USB HID keyboard usage `0x42` (the keycode header is
not part of the sources). -/
def KEY_F9 : Nat := 0x42

/-- Modelled from the spec: USB HID keyboard usage `0x43` (the keycode header is
not part of the sources). -/
def KEY_F10 : Nat := 0x43

/-- Modelled from the spec: USB HID keyboard usage `0x44` (the keycode header is
not part of the sources). -/
def KEY_F11 : Nat := 0x44

/-- Modelled from the spec: USB HID keyboard usage `0x45` (the keycode header is
not part of the sources). -/
def KEY_F12 : Nat := 0x45

/-- Modelled from the spec: USB HID keyboard usage `0x46` (the keycode header is
not part of the sources). -/
def KEY_PrintScreen : Nat := 0x46

/-- Modelled from the spec: USB HID keyboard usage `0x47` (the keycode header is
not part of the sources). -/
def KEY_ScrollLock : Nat := 0x47

/-- Modelled from the spec: USB HID keyboard usage `0x48` (the keycode header is
not part of the sources). -/
def KEY_Pause : Nat := 0x48

/-- Modelled from the spec: USB HID keyboard usage `0x49` (the keycode header is
not part of the sources). -/
def KEY_Insert : Nat := 0x49

/-- Modelled from the spec: USB HID keyboard usage `0x4A` (the keycode header is
not part of the sources). -/
def KEY_Home : Nat := 0x4A

/-- Modelled from the spec: USB HID keyboard usage `0x4B` (the keycode header is
not part of the sources). -/
def KEY_PageUp : Nat := 0x4B

/-- Modelled from the spec: USB HID keyboard usage `0x4C` (the keycode header is
not part of the sources). -/
def KEY_DeleteForward : Nat := 0x4C

/-- Modelled from the spec: USB HID keyboard usage `0x4D` (the keycode header is
not part of the sources). -/
def KEY_End : Nat := 0x4D

/-- Modelled from the spec: USB HID keyboard usage `0x4E` (the keycode header is
not part of the sources). -/
def KEY_PageDown : Nat := 0x4E

/-- Modelled from the spec: USB HID keyboard usage `0x4F` (the keycode header is
not part of the sources). -/
def KEY_RightArrow : Nat := 0x4F

/-- Modelled from the spec: USB HID keyboard usage `0x50` (the keycode header is
not part of the sources). -/
def KEY_LeftArrow : Nat := 0x50

/-- Modelled from the spec: USB HID keyboard usage `0x51` (the keycode header is
not part of the sources). -/
def KEY_DownArrow : Nat := 0x51

/-- Modelled from the spec: USB HID keyboard usage `0x52` (the keycode header is
not part of the sources). -/
def KEY_UpArrow : Nat := 0x52

/-- Modelled from the spec: USB HID keyboard usage `0x54` (the keycode header is
not part of the sources). -/
def KEYPAD_Slash : Nat := 0x54

/-- Modelled from the spec: USB HID keyboard usage `0x55` (the keycode header is
not part of the sources). -/
def KEYPAD_Asterisk : Nat := 0x55

/-- Modelled from the spec: USB HID keyboard usage `0x56` (the keycode header is
not part of the sources). -/
def KEYPAD_Minus : Nat := 0x56

/-- Modelled from the spec: USB HID keyboard usage `0x57` (the keycode header is
not part of the sources). -/
def KEYPAD_Plus : Nat := 0x57

/-- Modelled from the spec: USB HID keyboard usage `0x59` (the keycode header is
not part of the sources). -/
def KEYPAD_1_End : Nat := 0x59

/-- Modelled from the spec: USB HID keyboard usage `0x5A` (the keycode header is
not part of the sources). -/
def KEYPAD_2_DownArrow : Nat := 0x5A

/-- Modelled from the spec: USB HID keyboard usage `0x5B` (the keycode header is
not part of the sources). -/
def KEYPAD_3_PageDown : Nat := 0x5B

/-- Modelled from the spec: USB HID keyboard usage `0x5C` (the keycode header is
not part of the sources). -/
def KEYPAD_4_LeftArrow : Nat := 0x5C

/-- Modelled from the spec: USB HID keyboard usage `0x5D` (the keycode header is
not part of the sources). -/
def KEYPAD_5 : Nat := 0x5D

/-- Modelled from the spec: USB HID keyboard usage `0x5E` (the keycode header is
not part of the sources). -/
def KEYPAD_6_RightArrow : Nat := 0x5E

/-- Modelled from the spec: USB HID keyboard usage `0x5F` (the keycode header is
not part of the sources). -/
def KEYPAD_7_Home : Nat := 0x5F

/-- Modelled from the spec: USB HID keyboard usage `0x60` (the keycode header is
not part of the sources). -/
def KEYPAD_8_UpArrow : Nat := 0x60

/-- Modelled from the spec: USB HID keyboard usage `0x61` (the keycode header is
not part of the sources). -/
def KEYPAD_9_PageUp : Nat := 0x61

/-- Modelled from the spec: USB HID keyboard usage `0x62` (the keycode header is
not part of the sources). -/
def KEYPAD_0_Insert : Nat := 0x62

/-- Modelled from the spec: USB HID keyboard usage `0x63` (the keycode header is
not part of the sources). -/
def KEYPAD_Period_Delete : Nat := 0x63

/-- Modelled from the spec: USB HID keyboard usage `0x65` (the keycode header is
not part of the sources). -/
def KEY_Application : Nat := 0x65

/-- Modelled from the spec: USB HID keyboard usage `0x67` (the keycode header is
not part of the sources). -/
def KEYPAD_Equal : Nat := 0x67

/-- Modelled from the spec: USB HID keyboard usage `0xE0` (the keycode header is
not part of the sources). -/
def KEY_LeftControl : Nat := 0xE0

/-- Modelled from the spec: USB HID keyboard usage `0xE2` (the keycode header is
not part of the sources). -/
def KEY_LeftAlt : Nat := 0xE2

/-- Modelled from the spec: USB HID keyboard usage `0xE3` (the keycode header is
not part of the sources). -/
def KEY_LeftGUI : Nat := 0xE3

/-- Modelled from the spec: USB HID keyboard usage `0xE4` (the keycode header is
not part of the sources). -/
def KEY_RightControl : Nat := 0xE4

/-- Modelled from the spec: USB HID keyboard usage `0xE6` (the keycode header is
not part of the sources). -/
def KEY_RightAlt : Nat := 0xE6

/-- Modelled from the spec: USB HID keyboard usage `0xE7` (the keycode header is
not part of the sources). -/
def KEY_RightGUI : Nat := 0xE7

/-! ## Layout tables -/

/-- The media keys the layout table names. -/
inductive MediaKey where
  | AUDIO_MUTE
  | AUDIO_VOL_DOWN
  | AUDIO_VOL_UP
  | NEXT_TRACK
  | PLAY_PAUSE
  | PREV_TRACK
  | STOP
deriving DecidableEq, Repr

/-- An entry of `_kb_layout`: a number (a keycode of the USB keyboard page, a
layer number, or 0), or one of the `MEDIAKEY_` symbols, whose values are
defined in a header that is not part of the sources. -/
inductive Code where
  | usb (n : Nat)
  | media (k : MediaKey)
deriving DecidableEq, Repr

instance : Coe Nat Code := ⟨Code.usb⟩

instance (n : Nat) : OfNat Code n := ⟨Code.usb n⟩

/-- The symbol `MEDIAKEY_AUDIO_MUTE`. -/
def MEDIAKEY_AUDIO_MUTE : Code := Code.media MediaKey.AUDIO_MUTE

/-- The symbol `MEDIAKEY_AUDIO_VOL_DOWN`. -/
def MEDIAKEY_AUDIO_VOL_DOWN : Code := Code.media MediaKey.AUDIO_VOL_DOWN

/-- The symbol `MEDIAKEY_AUDIO_VOL_UP`. -/
def MEDIAKEY_AUDIO_VOL_UP : Code := Code.media MediaKey.AUDIO_VOL_UP

/-- The symbol `MEDIAKEY_NEXT_TRACK`. -/
def MEDIAKEY_NEXT_TRACK : Code := Code.media MediaKey.NEXT_TRACK

/-- The symbol `MEDIAKEY_PLAY_PAUSE`. -/
def MEDIAKEY_PLAY_PAUSE : Code := Code.media MediaKey.PLAY_PAUSE

/-- The symbol `MEDIAKEY_PREV_TRACK`. -/
def MEDIAKEY_PREV_TRACK : Code := Code.media MediaKey.PREV_TRACK

/-- The symbol `MEDIAKEY_STOP`. -/
def MEDIAKEY_STOP : Code := Code.media MediaKey.STOP

/-- The key functions the C file gives a short name to; each constructor is
the C function the short name points to. -/
inductive Kbfun where
  | kbfun_press_release_supporting_shift_inversion
  | kbfun_mediakey_press_release
  | kbfun_toggle
  | kbfun_transparent
  | kbfun_shift_inverted_press_release
  | kbfun_2_keys_capslock_press_release
  | kbfun_layer_push_1
  | kbfun_layer_push_2
  | kbfun_layer_push_3
  | kbfun_layer_push_4
  | kbfun_layer_push_5
  | kbfun_layer_pop_all
  | kbfun_layer_pop_1
  | kbfun_layer_pop_2
  | kbfun_layer_pop_3
  | kbfun_layer_pop_4
  | kbfun_layer_pop_5
  | kbfun_layer_toggle_1
  | kbfun_layer_toggle_2
  | kbfun_layer_toggle_3
  | kbfun_layer_toggle_4
  | kbfun_layer_toggle_5
  | kbfun_jump_to_bootloader
deriving DecidableEq, Repr

/-- The C type `void_funptr_t` of the entries of the two action tables: a
pointer to a key function, or `NULL`. -/
abbrev void_funptr_t := Option Kbfun

/-- The null pointer. -/
def NULL : void_funptr_t := none

/-- The C macro `kprrel`. -/
def kprrel : void_funptr_t := some Kbfun.kbfun_press_release_supporting_shift_inversion

/-- The C macro `mprrel`. -/
def mprrel : void_funptr_t := some Kbfun.kbfun_mediakey_press_release

/-- The C macro `ktog`. -/
def ktog : void_funptr_t := some Kbfun.kbfun_toggle

/-- The C macro `ktrans`. -/
def ktrans : void_funptr_t := some Kbfun.kbfun_transparent

/-- The C macro `sinvert`. -/
def sinvert : void_funptr_t := some Kbfun.kbfun_shift_inverted_press_release

/-- The C macro `s2kcap`. -/
def s2kcap : void_funptr_t := some Kbfun.kbfun_2_keys_capslock_press_release

/-- The C macro `lpush1`. -/
def lpush1 : void_funptr_t := some Kbfun.kbfun_layer_push_1

/-- The C macro `lpush2`. -/
def lpush2 : void_funptr_t := some Kbfun.kbfun_layer_push_2

/-- The C macro `lpush3`. -/
def lpush3 : void_funptr_t := some Kbfun.kbfun_layer_push_3

/-- The C macro `lpush4`. -/
def lpush4 : void_funptr_t := some Kbfun.kbfun_layer_push_4

/-- The C macro `lpush5`. -/
def lpush5 : void_funptr_t := some Kbfun.kbfun_layer_push_5

/-- The C macro `lpop`. -/
def lpop : void_funptr_t := some Kbfun.kbfun_layer_pop_all

/-- The C macro `lpop1`. -/
def lpop1 : void_funptr_t := some Kbfun.kbfun_layer_pop_1

/-- The C macro `lpop2`. -/
def lpop2 : void_funptr_t := some Kbfun.kbfun_layer_pop_2

/-- The C macro `lpop3`. -/
def lpop3 : void_funptr_t := some Kbfun.kbfun_layer_pop_3

/-- The C macro `lpop4`. -/
def lpop4 : void_funptr_t := some Kbfun.kbfun_layer_pop_4

/-- The C macro `lpop5`. -/
def lpop5 : void_funptr_t := some Kbfun.kbfun_layer_pop_5

/-- The C macro `ltog1`. -/
def ltog1 : void_funptr_t := some Kbfun.kbfun_layer_toggle_1

/-- The C macro `ltog2`. -/
def ltog2 : void_funptr_t := some Kbfun.kbfun_layer_toggle_2

/-- The C macro `ltog3`. -/
def ltog3 : void_funptr_t := some Kbfun.kbfun_layer_toggle_3

/-- The C macro `ltog4`. -/
def ltog4 : void_funptr_t := some Kbfun.kbfun_layer_toggle_4

/-- The C macro `ltog5`. -/
def ltog5 : void_funptr_t := some Kbfun.kbfun_layer_toggle_5

/-- The C macro `dbtldr`. -/
def dbtldr : void_funptr_t := some Kbfun.kbfun_jump_to_bootloader

/-- The C table `_kb_layout`: for each layer the arguments of
`KB_MATRIX_LAYER`, in the order and in the rows they are written (slot 0 is the entry for the
unused matrix positions). -/
def _kb_layout : List (List Code) := [
  -- LAYER 0 - Base layout
  List.flatten [
    [0],
    -- left hand
    [KEY_Equal_Plus, KEY_1_Exclamation, KEY_2_At, KEY_3_Pound, KEY_4_Dollar, KEY_5_Percent, KEY_Application],
    [KEY_Tab, KEY_q_Q, KEY_d_D, KEY_r_R, KEY_w_W, KEY_b_B, 1],
    [KEY_Escape, KEY_a_A, KEY_s_S, KEY_h_H, KEY_t_T, KEY_g_G],
    [KEY_LeftShift, KEY_z_Z, KEY_x_X, KEY_m_M, KEY_c_C, KEY_v_V, KEY_LeftAlt],
    [KEY_LeftGUI, KEY_GraveAccent_Tilde, KEY_Backslash_Pipe, KEY_LeftArrow, KEY_RightArrow],
    -- left thumb
    [KEY_LeftControl, KEY_PrintScreen],
    [0, 0, KEY_Home],
    [KEY_DeleteBackspace, KEY_DeleteForward, KEY_End],
    -- right hand
    [2, KEY_6_Caret, KEY_7_Ampersand, KEY_8_Asterisk, KEY_9_LeftParenthesis, KEY_0_RightParenthesis, KEY_Dash_Underscore],
    [1, KEY_j_J, KEY_f_F, KEY_u_U, KEY_p_P, KEY_Semicolon_Colon, KEY_Backslash_Pipe],
    [KEY_y_Y, KEY_n_N, KEY_e_E, KEY_o_O, KEY_i_I, KEY_SingleQuote_DoubleQuote],
    [KEY_RightAlt, KEY_k_K, KEY_l_L, KEY_Comma_LessThan, KEY_Period_GreaterThan, KEY_Slash_Question, KEY_RightShift],
    [KEY_UpArrow, KEY_DownArrow, KEY_LeftBracket_LeftBrace, KEY_RightBracket_RightBrace, KEY_RightGUI],
    -- right thumb
    [KEY_Pause, KEY_RightControl],
    [KEY_PageUp, 0, 0],
    [KEY_PageDown, KEY_ReturnEnter, KEY_Spacebar]
  ],
  -- LAYER 1 - Function layer
  List.flatten [
    [0],
    -- left hand
    [KEY_CapsLock, KEY_F1, KEY_F2, KEY_F3, KEY_F4, KEY_F5, KEY_F11],
    [0, 0, 0, 0, 0, 0, 0],
    [0, 0, 0, 0, 0, 0],
    [0, 0, 0, 0, 0, 0, 0],
    [0, 5, 0, MEDIAKEY_PREV_TRACK, MEDIAKEY_NEXT_TRACK],
    -- left thumb
    [0, 0],
    [0, 0, 0],
    [MEDIAKEY_STOP, KEY_Insert, 0],
    -- right hand
    [KEY_F12, KEY_F6, KEY_F7, KEY_F8, KEY_F9, KEY_F10, KEY_ScrollLock],
    [0, 0, 0, 0, 0, 0, 0],
    [0, 0, 0, 0, 0, 0],
    [0, 0, 0, 0, 0, 0, 0],
    [MEDIAKEY_AUDIO_VOL_UP, MEDIAKEY_AUDIO_VOL_DOWN, MEDIAKEY_AUDIO_MUTE, 4, 3],
    -- right thumb
    [0, 0],
    [0, 0, 0],
    [0, 0, MEDIAKEY_PLAY_PAUSE]
  ],
  -- LAYER 2 - Numpad layer
  List.flatten [
    [0],
    -- left hand
    [0, 0, 0, 0, 0, 0, 0],
    [0, 0, 0, 0, 0, 0, 0],
    [0, 0, 0, 0, 0, 0],
    [0, 0, 0, 0, 0, 0, 0],
    [0, 0, KEY_Insert, 0, 0],
    -- left thumb
    [0, 0],
    [0, 0, 0],
    [0, 0, 0],
    -- right hand
    [0, 0, KEYPAD_NumLock_Clear, KEYPAD_Equal, KEYPAD_Slash, KEYPAD_Asterisk, 0],
    [0, 0, KEYPAD_7_Home, KEYPAD_8_UpArrow, KEYPAD_9_PageUp, KEYPAD_Minus, 0],
    [0, KEYPAD_4_LeftArrow, KEYPAD_5, KEYPAD_6_RightArrow, KEYPAD_Plus, 0],
    [0, 0, KEYPAD_1_End, KEYPAD_2_DownArrow, KEYPAD_3_PageDown, KEY_ReturnEnter, 0],
    [0, 0, KEYPAD_Period_Delete, KEY_ReturnEnter, 0],
    -- right thumb
    [0, 0],
    [0, 0, 0],
    [0, 0, KEYPAD_0_Insert]
  ],
  -- LAYER 3 - QWERTY conversion layer
  List.flatten [
    [0],
    -- left hand
    [0, 0, 0, 0, 0, 0, 0],
    [0, KEY_q_Q, KEY_w_W, KEY_e_E, KEY_r_R, KEY_t_T, 0],
    [0, KEY_a_A, KEY_s_S, KEY_d_D, KEY_f_F, KEY_g_G],
    [0, KEY_z_Z, KEY_x_X, KEY_c_C, KEY_v_V, KEY_b_B, 0],
    [0, 0, 0, 0, 0],
    -- left thumb
    [0, 0],
    [0, 0, 0],
    [0, 0, 0],
    -- right hand
    [0, 0, 0, 0, 0, 0, 0],
    [0, KEY_y_Y, KEY_u_U, KEY_i_I, KEY_o_O, KEY_p_P, 0],
    [KEY_h_H, KEY_j_J, KEY_k_K, KEY_l_L, KEY_Semicolon_Colon, 0],
    [0, KEY_n_N, KEY_m_M, 0, 0, 0, 0],
    [0, 0, 0, 0, 0],
    -- right thumb
    [0, 0],
    [0, 0, 0],
    [0, 0, 0]
  ],
  -- LAYER 4 - Workman-P to Workman conversion layer
  List.flatten [
    [0],
    -- left hand
    [0, KEY_1_Exclamation, KEY_2_At, KEY_3_Pound, KEY_4_Dollar, KEY_5_Percent, 0],
    [0, 0, 0, 0, 0, 0, 0],
    [0, 0, 0, 0, 0, 0],
    [0, 0, 0, 0, 0, 0, 0],
    [0, 0, 0, 0, 0],
    -- left thumb
    [0, 0],
    [0, 0, 0],
    [0, 0, 0],
    -- right hand
    [0, KEY_6_Caret, KEY_7_Ampersand, KEY_8_Asterisk, KEY_9_LeftParenthesis, KEY_0_RightParenthesis, 0],
    [0, 0, 0, 0, 0, 0, 0],
    [0, 0, 0, 0, 0, 0],
    [0, 0, 0, 0, 0, 0, 0],
    [0, 0, 0, 0, 0],
    -- right thumb
    [0, 0],
    [0, 0, 0],
    [0, 0, 0]
  ],
  -- LAYER 5 - Backspace/Space swap layer
  List.flatten [
    [0],
    -- left hand
    [0, 0, 0, 0, 0, 0, 0],
    [0, 0, 0, 0, 0, 0, 0],
    [0, 0, 0, 0, 0, 0],
    [0, 0, 0, 0, 0, 0, 0],
    [0, 0, 0, 0, 0],
    -- left thumb
    [0, 0],
    [0, 0, 0],
    [KEY_Spacebar, 0, 0],
    -- right hand
    [0, 0, 0, 0, 0, 0, 0],
    [0, 0, 0, 0, 0, 0, 0],
    [0, 0, 0, 0, 0, 0],
    [0, 0, 0, 0, 0, 0, 0],
    [0, 0, 0, 0, 0],
    -- right thumb
    [0, 0],
    [0, 0, 0],
    [0, 0, KEY_DeleteBackspace]
  ]
]

/-- The C table `_kb_layout_press`, laid out as `_kb_layout`. -/
def _kb_layout_press : List (List void_funptr_t) := [
  -- LAYER 0 - Base layout
  List.flatten [
    [NULL],
    -- left hand
    [kprrel, sinvert, sinvert, sinvert, sinvert, sinvert, kprrel],
    [kprrel, kprrel, kprrel, kprrel, kprrel, kprrel, lpush1],
    [kprrel, kprrel, kprrel, kprrel, kprrel, kprrel],
    [s2kcap, kprrel, kprrel, kprrel, kprrel, kprrel, kprrel],
    [kprrel, kprrel, kprrel, kprrel, kprrel],
    -- left thumb
    [kprrel, kprrel],
    [NULL, NULL, kprrel],
    [kprrel, kprrel, kprrel],
    -- right hand
    [ltog2, sinvert, sinvert, sinvert, sinvert, sinvert, kprrel],
    [lpush1, kprrel, kprrel, kprrel, kprrel, kprrel, kprrel],
    [kprrel, kprrel, kprrel, kprrel, kprrel, kprrel],
    [kprrel, kprrel, kprrel, kprrel, kprrel, kprrel, s2kcap],
    [kprrel, kprrel, kprrel, kprrel, kprrel],
    -- right thumb
    [kprrel, kprrel],
    [kprrel, NULL, NULL],
    [kprrel, kprrel, kprrel]
  ],
  -- LAYER 1 - Function layer
  List.flatten [
    [NULL],
    -- left hand
    [kprrel, kprrel, kprrel, kprrel, kprrel, kprrel, kprrel],
    [ktrans, ktrans, ktrans, ktrans, ktrans, ktrans, ktrans],
    [ktrans, ktrans, ktrans, ktrans, ktrans, ktrans],
    [ktrans, ktrans, ktrans, ktrans, ktrans, ktrans, ktrans],
    [lpop, ltog5, ktrans, mprrel, mprrel],
    -- left thumb
    [ktrans, ktrans],
    [NULL, NULL, ktrans],
    [mprrel, kprrel, ktrans],
    -- right hand
    [kprrel, kprrel, kprrel, kprrel, kprrel, kprrel, kprrel],
    [ktrans, ktrans, ktrans, ktrans, ktrans, ktrans, ktrans],
    [ktrans, ktrans, ktrans, ktrans, ktrans, ktrans],
    [ktrans, ktrans, ktrans, ktrans, ktrans, ktrans, ktrans],
    [mprrel, mprrel, mprrel, ltog4, ltog3],
    -- right thumb
    [ktrans, ktrans],
    [ktrans, NULL, NULL],
    [ktrans, ktrans, mprrel]
  ],
  -- LAYER 2 - Numpad layer
  List.flatten [
    [NULL],
    -- left hand
    [ktrans, ktrans, ktrans, ktrans, ktrans, ktrans, ktrans],
    [ktrans, ktrans, ktrans, ktrans, ktrans, ktrans, ktrans],
    [ktrans, ktrans, ktrans, ktrans, ktrans, ktrans],
    [ktrans, ktrans, ktrans, ktrans, ktrans, ktrans, ktrans],
    [ktrans, ktrans, kprrel, ktrans, ktrans],
    -- left thumb
    [ktrans, ktrans],
    [NULL, NULL, ktrans],
    [ktrans, ktrans, ktrans],
    -- right hand
    [ktrans, ktrans, kprrel, kprrel, kprrel, kprrel, ktrans],
    [ktrans, ktrans, kprrel, kprrel, kprrel, kprrel, ktrans],
    [ktrans, kprrel, kprrel, kprrel, kprrel, ktrans],
    [ktrans, ktrans, kprrel, kprrel, kprrel, kprrel, ktrans],
    [ktrans, ktrans, kprrel, kprrel, ktrans],
    -- right thumb
    [ktrans, ktrans],
    [ktrans, NULL, NULL],
    [ktrans, ktrans, kprrel]
  ],
  -- LAYER 3 - QWERTY conversion layer
  List.flatten [
    [NULL],
    -- left hand
    [ktrans, ktrans, ktrans, ktrans, ktrans, ktrans, ktrans],
    [ktrans, kprrel, kprrel, kprrel, kprrel, kprrel, ktrans],
    [ktrans, kprrel, kprrel, kprrel, kprrel, kprrel],
    [ktrans, kprrel, kprrel, kprrel, kprrel, kprrel, ktrans],
    [ktrans, ktrans, ktrans, ktrans, ktrans],
    -- left thumb
    [ktrans, ktrans],
    [NULL, NULL, ktrans],
    [ktrans, ktrans, ktrans],
    -- right hand
    [ktrans, ktrans, ktrans, ktrans, ktrans, ktrans, ktrans],
    [ktrans, kprrel, kprrel, kprrel, kprrel, kprrel, ktrans],
    [kprrel, kprrel, kprrel, kprrel, kprrel, ktrans],
    [ktrans, kprrel, kprrel, ktrans, ktrans, ktrans, ktrans],
    [ktrans, ktrans, ktrans, ktrans, ktrans],
    -- right thumb
    [ktrans, ktrans],
    [ktrans, NULL, NULL],
    [ktrans, ktrans, ktrans]
  ],
  -- LAYER 4 - Workman-P to Workman conversion layer
  List.flatten [
    [NULL],
    -- left hand
    [ktrans, kprrel, kprrel, kprrel, kprrel, kprrel, ktrans],
    [ktrans, ktrans, ktrans, ktrans, ktrans, ktrans, ktrans],
    [ktrans, ktrans, ktrans, ktrans, ktrans, ktrans],
    [ktrans, ktrans, ktrans, ktrans, ktrans, ktrans, ktrans],
    [ktrans, ktrans, ktrans, ktrans, ktrans],
    -- left thumb
    [ktrans, ktrans],
    [NULL, NULL, ktrans],
    [ktrans, ktrans, ktrans],
    -- right hand
    [ktrans, kprrel, kprrel, kprrel, kprrel, kprrel, ktrans],
    [ktrans, ktrans, ktrans, ktrans, ktrans, ktrans, ktrans],
    [ktrans, ktrans, ktrans, ktrans, ktrans, ktrans],
    [ktrans, ktrans, ktrans, ktrans, ktrans, ktrans, ktrans],
    [ktrans, ktrans, ktrans, ktrans, ktrans],
    -- right thumb
    [ktrans, ktrans],
    [ktrans, NULL, NULL],
    [ktrans, ktrans, ktrans]
  ],
  -- LAYER 5 - Backspace/Space swap layer
  List.flatten [
    [NULL],
    -- left hand
    [ktrans, ktrans, ktrans, ktrans, ktrans, ktrans, ktrans],
    [ktrans, ktrans, ktrans, ktrans, ktrans, ktrans, ktrans],
    [ktrans, ktrans, ktrans, ktrans, ktrans, ktrans],
    [ktrans, ktrans, ktrans, ktrans, ktrans, ktrans, ktrans],
    [ktrans, ktrans, ktrans, ktrans, ktrans],
    -- left thumb
    [ktrans, ktrans],
    [NULL, NULL, ktrans],
    [kprrel, ktrans, ktrans],
    -- right hand
    [ktrans, ktrans, ktrans, ktrans, ktrans, ktrans, ktrans],
    [ktrans, ktrans, ktrans, ktrans, ktrans, ktrans, ktrans],
    [ktrans, ktrans, ktrans, ktrans, ktrans, ktrans],
    [ktrans, ktrans, ktrans, ktrans, ktrans, ktrans, ktrans],
    [ktrans, ktrans, ktrans, ktrans, ktrans],
    -- right thumb
    [ktrans, ktrans],
    [ktrans, NULL, NULL],
    [ktrans, ktrans, kprrel]
  ]
]

/-- The C table `_kb_layout_release`, laid out as `_kb_layout`. -/
def _kb_layout_release : List (List void_funptr_t) := [
  -- LAYER 0 - Base layout
  List.flatten [
    [NULL],
    -- left hand
    [kprrel, sinvert, sinvert, sinvert, sinvert, sinvert, kprrel],
    [kprrel, kprrel, kprrel, kprrel, kprrel, kprrel, lpop1],
    [kprrel, kprrel, kprrel, kprrel, kprrel, kprrel],
    [s2kcap, kprrel, kprrel, kprrel, kprrel, kprrel, kprrel],
    [kprrel, kprrel, kprrel, kprrel, kprrel],
    -- left thumb
    [kprrel, kprrel],
    [NULL, NULL, kprrel],
    [kprrel, kprrel, kprrel],
    -- right hand
    [NULL, sinvert, sinvert, sinvert, sinvert, sinvert, kprrel],
    [lpop1, kprrel, kprrel, kprrel, kprrel, kprrel, kprrel],
    [kprrel, kprrel, kprrel, kprrel, kprrel, kprrel],
    [kprrel, kprrel, kprrel, kprrel, kprrel, kprrel, s2kcap],
    [kprrel, kprrel, kprrel, kprrel, kprrel],
    -- right thumb
    [kprrel, kprrel],
    [kprrel, NULL, NULL],
    [kprrel, kprrel, kprrel]
  ],
  -- LAYER 1 - Function layer
  List.flatten [
    [NULL],
    -- left hand
    [kprrel, kprrel, kprrel, kprrel, kprrel, kprrel, kprrel],
    [ktrans, ktrans, ktrans, ktrans, ktrans, ktrans, ktrans],
    [ktrans, ktrans, ktrans, ktrans, ktrans, ktrans],
    [ktrans, ktrans, ktrans, ktrans, ktrans, ktrans, ktrans],
    [NULL, NULL, ktrans, mprrel, mprrel],
    -- left thumb
    [ktrans, ktrans],
    [NULL, NULL, ktrans],
    [mprrel, kprrel, ktrans],
    -- right hand
    [kprrel, kprrel, kprrel, kprrel, kprrel, kprrel, kprrel],
    [ktrans, ktrans, ktrans, ktrans, ktrans, ktrans, ktrans],
    [ktrans, ktrans, ktrans, ktrans, ktrans, ktrans],
    [ktrans, ktrans, ktrans, ktrans, ktrans, ktrans, ktrans],
    [mprrel, mprrel, mprrel, NULL, NULL],
    -- right thumb
    [ktrans, ktrans],
    [ktrans, NULL, NULL],
    [ktrans, ktrans, mprrel]
  ],
  -- LAYER 2 - Numpad layer
  List.flatten [
    [NULL],
    -- left hand
    [ktrans, ktrans, ktrans, ktrans, ktrans, ktrans, ktrans],
    [ktrans, ktrans, ktrans, ktrans, ktrans, ktrans, ktrans],
    [ktrans, ktrans, ktrans, ktrans, ktrans, ktrans],
    [ktrans, ktrans, ktrans, ktrans, ktrans, ktrans, ktrans],
    [ktrans, ktrans, kprrel, ktrans, ktrans],
    -- left thumb
    [ktrans, ktrans],
    [NULL, NULL, ktrans],
    [ktrans, ktrans, ktrans],
    -- right hand
    [ktrans, ktrans, kprrel, kprrel, kprrel, kprrel, ktrans],
    [ktrans, ktrans, kprrel, kprrel, kprrel, kprrel, ktrans],
    [ktrans, kprrel, kprrel, kprrel, kprrel, ktrans],
    [ktrans, ktrans, kprrel, kprrel, kprrel, kprrel, ktrans],
    [ktrans, ktrans, kprrel, kprrel, ktrans],
    -- right thumb
    [ktrans, ktrans],
    [ktrans, NULL, NULL],
    [ktrans, ktrans, kprrel]
  ],
  -- LAYER 3 - QWERTY conversion layer
  List.flatten [
    [NULL],
    -- left hand
    [ktrans, ktrans, ktrans, ktrans, ktrans, ktrans, ktrans],
    [ktrans, kprrel, kprrel, kprrel, kprrel, kprrel, ktrans],
    [ktrans, kprrel, kprrel, kprrel, kprrel, kprrel],
    [ktrans, kprrel, kprrel, kprrel, kprrel, kprrel, ktrans],
    [ktrans, ktrans, ktrans, ktrans, ktrans],
    -- left thumb
    [ktrans, ktrans],
    [NULL, NULL, ktrans],
    [ktrans, ktrans, ktrans],
    -- right hand
    [ktrans, ktrans, ktrans, ktrans, ktrans, ktrans, ktrans],
    [ktrans, kprrel, kprrel, kprrel, kprrel, kprrel, ktrans],
    [kprrel, kprrel, kprrel, kprrel, kprrel, ktrans],
    [ktrans, kprrel, kprrel, ktrans, ktrans, ktrans, ktrans],
    [ktrans, ktrans, ktrans, ktrans, ktrans],
    -- right thumb
    [ktrans, ktrans],
    [ktrans, NULL, NULL],
    [ktrans, ktrans, ktrans]
  ],
  -- LAYER 4 - Workman-P to Workman conversion layer
  List.flatten [
    [NULL],
    -- left hand
    [ktrans, kprrel, kprrel, kprrel, kprrel, kprrel, ktrans],
    [ktrans, ktrans, ktrans, ktrans, ktrans, ktrans, ktrans],
    [ktrans, ktrans, ktrans, ktrans, ktrans, ktrans],
    [ktrans, ktrans, ktrans, ktrans, ktrans, ktrans, ktrans],
    [ktrans, ktrans, ktrans, ktrans, ktrans],
    -- left thumb
    [ktrans, ktrans],
    [NULL, NULL, ktrans],
    [ktrans, ktrans, ktrans],
    -- right hand
    [ktrans, kprrel, kprrel, kprrel, kprrel, kprrel, ktrans],
    [ktrans, ktrans, ktrans, ktrans, ktrans, ktrans, ktrans],
    [ktrans, ktrans, ktrans, ktrans, ktrans, ktrans],
    [ktrans, ktrans, ktrans, ktrans, ktrans, ktrans, ktrans],
    [ktrans, ktrans, ktrans, ktrans, ktrans],
    -- right thumb
    [ktrans, ktrans],
    [ktrans, NULL, NULL],
    [ktrans, ktrans, ktrans]
  ],
  -- LAYER 5 - Backspace/Space swap layer
  List.flatten [
    [NULL],
    -- left hand
    [ktrans, ktrans, ktrans, ktrans, ktrans, ktrans, ktrans],
    [ktrans, ktrans, ktrans, ktrans, ktrans, ktrans, ktrans],
    [ktrans, ktrans, ktrans, ktrans, ktrans, ktrans],
    [ktrans, ktrans, ktrans, ktrans, ktrans, ktrans, ktrans],
    [ktrans, ktrans, ktrans, ktrans, ktrans],
    -- left thumb
    [ktrans, ktrans],
    [NULL, NULL, ktrans],
    [kprrel, ktrans, ktrans],
    -- right hand
    [ktrans, ktrans, ktrans, ktrans, ktrans, ktrans, ktrans],
    [ktrans, ktrans, ktrans, ktrans, ktrans, ktrans, ktrans],
    [ktrans, ktrans, ktrans, ktrans, ktrans, ktrans],
    [ktrans, ktrans, ktrans, ktrans, ktrans, ktrans, ktrans],
    [ktrans, ktrans, ktrans, ktrans, ktrans],
    -- right thumb
    [ktrans, ktrans],
    [ktrans, NULL, NULL],
    [ktrans, ktrans, kprrel]
  ]
]

/-- Number of layers the three tables are written for. -/
def layers : Nat := 6

/-- Number of arguments of one `KB_MATRIX_LAYER`. -/
def slots : Nat := 81

/-- Modelled from the spec: the macro `kb_layout_get` of `layout.h` and the
macro `KB_MATRIX_LAYER` of `matrix.h` are not part of the sources.  The
keycode of a position is read from `_kb_layout`; a position of a layer is
named by its argument slot in `KB_MATRIX_LAYER`. -/
def kb_layout_get (layer slot : Nat) : Option Code :=
  (_kb_layout[layer]?).bind (fun l => l[slot]?)

/-- Modelled from the spec: the macro `kb_layout_press_get` is not part of the
sources; it reads `_kb_layout_press` as `kb_layout_get` reads `_kb_layout`. -/
def kb_layout_press_get (layer slot : Nat) : Option void_funptr_t :=
  (_kb_layout_press[layer]?).bind (fun l => l[slot]?)

/-- Modelled from the spec: the macro `kb_layout_release_get` is not part of
the sources; it reads `_kb_layout_release` as `kb_layout_get` reads
`_kb_layout`. -/
def kb_layout_release_get (layer slot : Nat) : Option void_funptr_t :=
  (_kb_layout_release[layer]?).bind (fun l => l[slot]?)

/-- The release action the tables pair with a press action: the same function
for the six kinds that handle both events, `lpop1` for `lpush1`, `NULL` for
the layer toggles and for `lpop`; no pairing for the other functions. -/
def paired_release (p : void_funptr_t) : Option void_funptr_t :=
  if p = kprrel ∨ p = sinvert ∨ p = s2kcap ∨ p = mprrel ∨ p = ktrans ∨ p = NULL then
    some p
  else if p = lpush1 then some lpop1
  else if p = ltog2 ∨ p = ltog3 ∨ p = ltog4 ∨ p = ltog5 ∨ p = lpop then some NULL
  else none

/-- The positions (layer, slot) of the tables, layer by layer. -/
def positions : List (Nat × Nat) :=
  (List.range layers).flatMap (fun l => (List.range slots).map (fun s => (l, s)))

/-- The positions whose keycode is Left Shift or Right Shift. -/
def shift_positions : List (Nat × Nat) :=
  positions.filter (fun p =>
    kb_layout_get p.1 p.2 = some (Code.usb KEY_LeftShift)
      ∨ kb_layout_get p.1 p.2 = some (Code.usb KEY_RightShift))

/-- The value `kb_layout_get` yields as a `uint8_t`: the number itself, or
the value `mv` gives to a media-key symbol. -/
def Code.value (mv : MediaKey → Nat) : Code → Nat
  | Code.usb n => n
  | Code.media k => mv k

/-- One scan event as the tables see it: the value of `IS_PRESSED`, the layer
and the argument slot of the position. -/
structure ScanEvent where
  is_pressed : Bool
  layer : Nat
  slot : Nat
deriving DecidableEq, Repr

/-- The action function the tables hold for the event: the press action on a
press, the release action on a release. -/
def action_of (ev : ScanEvent) : Option void_funptr_t :=
  if ev.is_pressed then kb_layout_press_get ev.layer ev.slot
  else kb_layout_release_get ev.layer ev.slot

/-- Modelled from the spec: the main loop is not part of the sources; the spec
says the scanner looks up the action function for press or release in the
table and invokes it.  The two key functions of this file run on the keycode
of the position.  Every other key function lives in a file that is not part
of the sources; the three variables of the engine are `static` in this file,
so such a function leaves them alone, and what it emits is the parameter
`other`.  `NULL` and positions outside the tables call nothing. -/
def dispatch (mv : MediaKey → Nat)
    (other : Kbfun → Bool → Code → KB → List Emit) (s : KB) (ev : ScanEvent) :
    KB :=
  match action_of ev, kb_layout_get ev.layer ev.slot with
  | some (some Kbfun.kbfun_shift_inverted_press_release), some c =>
      kbfun_shift_inverted_press_release ev.is_pressed (c.value mv) s
  | some (some Kbfun.kbfun_press_release_supporting_shift_inversion), some c =>
      kbfun_press_release_supporting_shift_inversion ev.is_pressed (c.value mv) s
  | some (some f), some c =>
      { s with emitted := s.emitted ++ other f ev.is_pressed c s }
  | _, _ => s

/-- The event makes `kbfun_press_release_supporting_shift_inversion` run on a
Shift keycode, the one case in which it writes a physical boolean. -/
def takes_shift_branch (mv : MediaKey → Nat) (ev : ScanEvent) : Prop :=
  action_of ev = some kprrel
    ∧ ∃ c, kb_layout_get ev.layer ev.slot = some c
        ∧ (c.value mv = KEY_LeftShift ∨ c.value mv = KEY_RightShift)

/-- The event is for a position of the tables. -/
def ScanEvent.valid (ev : ScanEvent) : Prop :=
  ev.layer < layers ∧ ev.slot < slots

instance (ev : ScanEvent) : Decidable ev.valid := by
  unfold ScanEvent.valid; infer_instance

/-- The entry is a number other than the keycodes of the two Shift keys. -/
def plain_code (c : Option Code) : Prop :=
  match c with
  | some (Code.usb n) => n ≠ KEY_LeftShift ∧ n ≠ KEY_RightShift
  | _ => False

instance (c : Option Code) : Decidable (plain_code c) := by
  unfold plain_code
  split <;> infer_instance

/-- The positions at which one of the two action tables holds `sinvert`: the
inverted keys of the layout. -/
def inverted_positions : List (Nat × Nat) :=
  positions.filter (fun p =>
    kb_layout_press_get p.1 p.2 = some sinvert
      ∨ kb_layout_release_get p.1 p.2 = some sinvert)

/-- The call is for one of the two Shift keys. -/
def is_shift_call (e : Emit) : Prop :=
  e.keycode = KEY_LeftShift ∨ e.keycode = KEY_RightShift

instance (e : Emit) : Decidable (is_shift_call e) := by
  unfold is_shift_call; infer_instance

/-- In the output `out` every call for a Shift key comes before the call
`ev`: no call that follows the first occurrence of `ev` is for a Shift
key. -/
def shift_calls_precede (ev : Emit) (out : List Emit) : Prop :=
  ∀ e ∈ (out.dropWhile (fun x => decide (x ≠ ev))).tail, ¬ is_shift_call e

instance (ev : Emit) (out : List Emit) : Decidable (shift_calls_precede ev out) := by
  unfold shift_calls_precede; infer_instance

/-! ## All held keys -/

/-- Effect of one event on the set of held keys, kept as a list without
repetition.  A key is a position of the tables, named by the engine function
it is dispatched to and its index: a press adds it unless it is already held,
a release removes it. -/
def held_keys_step (h : List (Handler × Nat)) (e : Event) :
    List (Handler × Nat) :=
  if e.is_pressed then
    (if (e.handler, e.key) ∈ h then h else (e.handler, e.key) :: h)
  else h.erase (e.handler, e.key)

/-- The keys that were pressed and not yet released after the events `es`
from power-on. -/
def held_keys (es : List Event) : List (Handler × Nat) :=
  es.foldl held_keys_step []

/-- Every press of the list is the press of a key that is not held. -/
def fresh_presses : List (Handler × Nat) → List Event → Prop
  | _, [] => True
  | h, e :: es =>
    (e.is_pressed = true → (e.handler, e.key) ∉ h)
      ∧ fresh_presses (held_keys_step h e) es

/-- Decision procedure for `fresh_presses`. -/
def fresh_presses_decidable :
    ∀ h es, Decidable (fresh_presses h es)
  | _, [] => isTrue trivial
  | h, e :: es =>
    match (inferInstance : Decidable (e.is_pressed = true → (e.handler, e.key) ∉ h)),
        fresh_presses_decidable (held_keys_step h e) es with
    | isTrue hp, isTrue hs => isTrue ⟨hp, hs⟩
    | isFalse hp, _ => isFalse (fun hc => hp hc.1)
    | _, isFalse hs => isFalse (fun hc => hs hc.2)

instance (h : List (Handler × Nat)) (es : List Event) :
    Decidable (fresh_presses h es) :=
  fresh_presses_decidable h es

/-! ## Unfolding lemmas -/

theorem sinvert_press_eq (keycode : Nat) (s : KB) :
    kbfun_shift_inverted_press_release true keycode s =
      { inverted_keys_pressed := (s.inverted_keys_pressed + 1) % 256
        physical_lshift_pressed := s.physical_lshift_pressed
        physical_rshift_pressed := s.physical_rshift_pressed
        emitted := s.emitted ++
          (invert_pair s.physical_lshift_pressed s.physical_rshift_pressed
            ++ [⟨true, keycode⟩]) } := by
  simp [kbfun_shift_inverted_press_release, _kbfun_invert_shift_state,
    kbfun_press_release, _kbfun_press_release, invert_pair]

theorem sinvert_release_eq (keycode : Nat) (s : KB) :
    kbfun_shift_inverted_press_release false keycode s =
      { inverted_keys_pressed := s.inverted_keys_pressed - 1
        physical_lshift_pressed := s.physical_lshift_pressed
        physical_rshift_pressed := s.physical_rshift_pressed
        emitted := s.emitted ++
          (⟨false, keycode⟩ ::
            (if s.inverted_keys_pressed = 1 then
              restore_pair s.physical_lshift_pressed s.physical_rshift_pressed
            else [])) } := by
  by_cases h1 : s.inverted_keys_pressed = 1
  · simp [kbfun_shift_inverted_press_release, _kbfun_restore_shift_state,
      kbfun_press_release, _kbfun_press_release, restore_pair, h1]
  · by_cases h0 : s.inverted_keys_pressed = 0
    · simp [kbfun_shift_inverted_press_release, _kbfun_restore_shift_state,
        kbfun_press_release, _kbfun_press_release, restore_pair, h0]
    · simp [kbfun_shift_inverted_press_release, _kbfun_restore_shift_state,
        kbfun_press_release, _kbfun_press_release, restore_pair, h1, h0]

theorem kprrel_lshift_eq (is_pressed : Bool) (s : KB) :
    kbfun_press_release_supporting_shift_inversion is_pressed KEY_LeftShift s =
      { inverted_keys_pressed := s.inverted_keys_pressed
        physical_lshift_pressed := is_pressed
        physical_rshift_pressed := s.physical_rshift_pressed
        emitted := s.emitted ++
          (if s.inverted_keys_pressed ≠ 0 then
            invert_pair is_pressed s.physical_rshift_pressed
          else [⟨is_pressed, KEY_LeftShift⟩]) } := by
  by_cases h0 : s.inverted_keys_pressed = 0 <;>
    simp [kbfun_press_release_supporting_shift_inversion,
      _kbfun_invert_shift_state, kbfun_press_release, _kbfun_press_release,
      invert_pair, h0]

theorem kprrel_rshift_eq (is_pressed : Bool) (s : KB) :
    kbfun_press_release_supporting_shift_inversion is_pressed KEY_RightShift s =
      { inverted_keys_pressed := s.inverted_keys_pressed
        physical_lshift_pressed := s.physical_lshift_pressed
        physical_rshift_pressed := is_pressed
        emitted := s.emitted ++
          (if s.inverted_keys_pressed ≠ 0 then
            invert_pair s.physical_lshift_pressed is_pressed
          else [⟨is_pressed, KEY_RightShift⟩]) } := by
  by_cases h0 : s.inverted_keys_pressed = 0 <;>
    simp [kbfun_press_release_supporting_shift_inversion,
      _kbfun_invert_shift_state, kbfun_press_release, _kbfun_press_release,
      invert_pair, h0, KEY_LeftShift, KEY_RightShift]

theorem kprrel_lock_eq (is_pressed : Bool) (keycode : Nat) (s : KB)
    (hk : keycode = KEY_CapsLock ∨ keycode = KEYPAD_NumLock_Clear) :
    kbfun_press_release_supporting_shift_inversion is_pressed keycode s =
      { s with emitted := s.emitted ++ [⟨is_pressed, keycode⟩] } := by
  rcases hk with hk | hk <;>
    simp [kbfun_press_release_supporting_shift_inversion,
      kbfun_press_release, _kbfun_press_release, hk, KEY_LeftShift,
      KEY_RightShift, KEY_CapsLock, KEYPAD_NumLock_Clear]

theorem kprrel_other_eq (is_pressed : Bool) (keycode : Nat) (s : KB)
    (hl : keycode ≠ KEY_LeftShift) (hr : keycode ≠ KEY_RightShift)
    (hc : keycode ≠ KEY_CapsLock) (hn : keycode ≠ KEYPAD_NumLock_Clear) :
    kbfun_press_release_supporting_shift_inversion is_pressed keycode s =
      { inverted_keys_pressed := 0
        physical_lshift_pressed := s.physical_lshift_pressed
        physical_rshift_pressed := s.physical_rshift_pressed
        emitted := s.emitted ++
          ((if s.inverted_keys_pressed ≠ 0 then
            restore_pair s.physical_lshift_pressed s.physical_rshift_pressed
          else []) ++ [⟨is_pressed, keycode⟩]) } := by
  by_cases h0 : s.inverted_keys_pressed = 0 <;>
    simp [kbfun_press_release_supporting_shift_inversion,
      _kbfun_restore_shift_state, kbfun_press_release, _kbfun_press_release,
      restore_pair, h0, hl, hr, hc, hn]

theorem line_state_append (k : Nat) (log l : List Emit) :
    line_state k (log ++ l) = l.foldl (apply_emit k) (line_state k log) := by
  simp [line_state, List.foldl_append]

/-! ## Invariant of a step -/

theorem step_counter_lt (s : KB) (e : Event) (hlt : s.inverted_keys_pressed < 256) :
    (step s e).inverted_keys_pressed < 256 := by
  obtain ⟨hd, p, k, key⟩ := e
  cases hd
  · cases p
    · simp only [step, sinvert_release_eq]
      omega
    · simp only [step, sinvert_press_eq]
      omega
  · simp only [step]
    by_cases hl : k = KEY_LeftShift
    · subst hl; rw [kprrel_lshift_eq]; exact hlt
    · by_cases hr : k = KEY_RightShift
      · subst hr; rw [kprrel_rshift_eq]; exact hlt
      · by_cases hc : k = KEY_CapsLock ∨ k = KEYPAD_NumLock_Clear
        · rw [kprrel_lock_eq p k s hc]; exact hlt
        · rw [not_or] at hc
          rw [kprrel_other_eq p k s hl hr hc.1 hc.2]
          show 0 < 256
          omega

theorem line_state_snoc_ne (k : Nat) (log : List Emit) (e : Emit)
    (h : e.keycode ≠ k) : line_state k (log ++ [e]) = line_state k log := by
  simp [line_state_append, apply_emit, h]

theorem step_preserves_invariant (s : KB) (h : List Nat) (e : Event)
    (hlt : s.inverted_keys_pressed < 256) (hinv : shift_invariant s)
    (hk : inverted_not_shift e) (hb : below_limit s h e) :
    shift_invariant (step s e) := by
  obtain ⟨hd, p, k, key⟩ := e
  obtain ⟨hpos, hzero⟩ := hinv
  cases hd
  · have hl2 : k ≠ 225 := (hk rfl).1
    have hr2 : k ≠ 229 := (hk rfl).2
    cases p
    · simp only [step, sinvert_release_eq]
      by_cases h1 : s.inverted_keys_pressed = 1
      · simp [shift_invariant, physical, forced, lshift_line, rshift_line,
          line_state_append, apply_emit, restore_pair, h1, KEY_LeftShift,
          KEY_RightShift]
      · by_cases h0 : s.inverted_keys_pressed = 0
        · obtain ⟨hpl, hpr⟩ := hzero h0
          simp only [lshift_line, rshift_line, KEY_LeftShift, KEY_RightShift]
            at hpl hpr
          simp [shift_invariant, physical, forced, lshift_line, rshift_line,
            line_state_append, apply_emit, h0, hl2, hr2, hpl, hpr,
            KEY_LeftShift, KEY_RightShift]
        · obtain ⟨hfl, hfr⟩ := hpos (Nat.pos_of_ne_zero h0)
          simp only [lshift_line, rshift_line, KEY_LeftShift, KEY_RightShift]
            at hfl hfr
          have h2 : s.inverted_keys_pressed - 1 ≠ 0 := by omega
          simp [shift_invariant, physical, forced, lshift_line, rshift_line,
            line_state_append, apply_emit, h0, h1, h2, hl2, hr2, hfl, hfr,
            KEY_LeftShift, KEY_RightShift]
    · have hne : s.inverted_keys_pressed ≠ 255 := fun hc => hb ⟨rfl, rfl, hc⟩
      have hmod : (s.inverted_keys_pressed + 1) % 256 ≠ 0 := by omega
      simp [step, sinvert_press_eq, shift_invariant, physical, forced,
        lshift_line, rshift_line, line_state_append, apply_emit, invert_pair,
        hmod, hl2, hr2, KEY_LeftShift, KEY_RightShift]
  · simp only [step]
    by_cases hl : k = KEY_LeftShift
    · subst hl
      rw [kprrel_lshift_eq]
      by_cases h0 : s.inverted_keys_pressed = 0
      · obtain ⟨hpl, hpr⟩ := hzero h0
        simp only [lshift_line, rshift_line, KEY_LeftShift, KEY_RightShift]
          at hpl hpr
        simp [shift_invariant, physical, forced, lshift_line, rshift_line,
          line_state_append, apply_emit, h0, hpr, KEY_LeftShift,
          KEY_RightShift]
      · simp [shift_invariant, physical, forced, lshift_line, rshift_line,
          line_state_append, apply_emit, invert_pair, h0, KEY_LeftShift,
          KEY_RightShift]
    · by_cases hr : k = KEY_RightShift
      · subst hr
        rw [kprrel_rshift_eq]
        by_cases h0 : s.inverted_keys_pressed = 0
        · obtain ⟨hpl, hpr⟩ := hzero h0
          simp only [lshift_line, rshift_line, KEY_LeftShift, KEY_RightShift]
            at hpl hpr
          simp [shift_invariant, physical, forced, lshift_line, rshift_line,
            line_state_append, apply_emit, h0, hpl, KEY_LeftShift,
            KEY_RightShift]
        · simp [shift_invariant, physical, forced, lshift_line, rshift_line,
            line_state_append, apply_emit, invert_pair, h0, KEY_LeftShift,
            KEY_RightShift]
      · by_cases hc : k = KEY_CapsLock ∨ k = KEYPAD_NumLock_Clear
        · rw [kprrel_lock_eq p k s hc]
          have e1 : lshift_line { s with emitted := s.emitted ++ [⟨p, k⟩] }
              = lshift_line s := line_state_snoc_ne _ _ _ hl
          have e2 : rshift_line { s with emitted := s.emitted ++ [⟨p, k⟩] }
              = rshift_line s := line_state_snoc_ne _ _ _ hr
          exact ⟨fun hp => ⟨e1.trans (hpos hp).1, e2.trans (hpos hp).2⟩,
            fun hz => ⟨e1.trans (hzero hz).1, e2.trans (hzero hz).2⟩⟩
        · rw [not_or] at hc
          rw [kprrel_other_eq p k s hl hr hc.1 hc.2]
          have hl2 : k ≠ 225 := hl
          have hr2 : k ≠ 229 := hr
          by_cases h0 : s.inverted_keys_pressed = 0
          · obtain ⟨hpl, hpr⟩ := hzero h0
            simp only [lshift_line, rshift_line, KEY_LeftShift, KEY_RightShift]
              at hpl hpr
            simp [shift_invariant, physical, forced, lshift_line, rshift_line,
              line_state_append, apply_emit, h0, hl2, hr2, hpl, hpr,
              KEY_LeftShift, KEY_RightShift]
          · simp [shift_invariant, physical, forced, lshift_line, rshift_line,
              line_state_append, apply_emit, restore_pair, h0, hl2, hr2,
              KEY_LeftShift, KEY_RightShift]

theorem press_many_succ (n : Nat) (s : KB) :
    run s (press_many (n + 1))
      = kbfun_shift_inverted_press_release true KEY_1_Exclamation
          (run s (press_many n)) := by
  simp [press_many, run, List.range_succ, List.foldl_append, step, inv_press]

theorem press_many_state (n : Nat) :
    (run init (press_many n)).inverted_keys_pressed = n % 256
    ∧ (run init (press_many n)).physical_lshift_pressed = false
    ∧ (run init (press_many n)).physical_rshift_pressed = false
    ∧ (0 < n → lshift_line (run init (press_many n)) = true
        ∧ rshift_line (run init (press_many n)) = false) := by
  induction n with
  | zero => decide
  | succ n ih =>
    obtain ⟨hc, hl, hr, _⟩ := ih
    rw [press_many_succ, sinvert_press_eq]
    refine ⟨?_, hl, hr, fun _ => ?_⟩
    · show ((run init (press_many n)).inverted_keys_pressed + 1) % 256
        = (n + 1) % 256
      rw [hc]
      omega
    · simp [lshift_line, rshift_line, line_state_append, apply_emit,
        invert_pair, hl, hr, KEY_LeftShift, KEY_RightShift, KEY_1_Exclamation]

theorem run_invariant (es : List Event) :
    ∀ (s : KB) (h : List Nat), s.inverted_keys_pressed < 256 →
      shift_invariant s → (∀ e ∈ es, inverted_not_shift e) →
      along below_limit s h es → shift_invariant (run s es) := by
  induction es with
  | nil =>
    intro s h _ hinv _ _
    exact hinv
  | cons e es ih =>
    intro s h hlt hinv hk hb
    exact ih (step s e) (held_step h e) (step_counter_lt s e hlt)
      (step_preserves_invariant s h e hlt hinv
        (hk e (List.mem_cons_self _ _)) hb.1)
      (fun e2 he2 => hk e2 (List.mem_cons_of_mem _ he2)) hb.2

/-! ## Counter and held keys -/

theorem along_at (p : KB → List Nat → Event → Prop) (pre : List Event) :
    ∀ (s : KB) (h : List Nat) (e : Event) (post : List Event),
      along p s h (pre ++ e :: post) → p (run s pre) (held_from h pre) e := by
  induction pre with
  | nil =>
    intro s h e post ha
    exact ha.1
  | cons a pre ih =>
    intro s h e post ha
    exact ih (step s a) (held_step h a) e post ha.2

theorem along_initial (p : KB → List Nat → Event → Prop) (pre : List Event) :
    ∀ (s : KB) (h : List Nat) (post : List Event),
      along p s h (pre ++ post) → along p s h pre := by
  induction pre with
  | nil =>
    intro s h post _
    trivial
  | cons a pre ih =>
    intro s h post ha
    exact ⟨ha.1, ih (step s a) (held_step h a) post ha.2⟩

theorem step_in_sync (s : KB) (h : List Nat) (e : Event) (hs : in_sync s h)
    (hm : matched s h e) (hw : within_capacity s h e)
    (hn : no_correction s h e) : in_sync (step s e) (held_step h e) := by
  obtain ⟨hd, p, k, key⟩ := e
  obtain ⟨hcnt, hnd⟩ := hs
  cases hd
  · cases p
    · have hmem : key ∈ h := (hm rfl).2 rfl
      have hlen : (h.erase key).length = h.length - 1 :=
        List.length_erase_of_mem hmem
      refine ⟨?_, hnd.erase key⟩
      simp only [step, sinvert_release_eq, held_step]
      simp only [Bool.false_eq_true, if_false]
      omega
    · have hnot : key ∉ h := (hm rfl).1 rfl
      have hcap : (key :: h).length < 256 := hw
      simp only [List.length_cons] at hcap
      refine ⟨?_, List.nodup_cons.mpr ⟨hnot, hnd⟩⟩
      simp only [step, sinvert_press_eq, held_step]
      simp only [if_true, List.length_cons]
      omega
  · refine ⟨?_, hnd⟩
    simp only [step, held_step]
    by_cases hl : k = KEY_LeftShift
    · subst hl; rw [kprrel_lshift_eq]; exact hcnt
    · by_cases hr : k = KEY_RightShift
      · subst hr; rw [kprrel_rshift_eq]; exact hcnt
      · by_cases hc : k = KEY_CapsLock ∨ k = KEYPAD_NumLock_Clear
        · rw [kprrel_lock_eq p k s hc]; exact hcnt
        · rw [not_or] at hc
          rw [kprrel_other_eq p k s hl hr hc.1 hc.2]
          have hempty : h = [] := hn ⟨rfl, hl, hr, hc.1, hc.2⟩
          simp [hempty]

theorem run_in_sync (es : List Event) :
    ∀ (s : KB) (h : List Nat), in_sync s h → along matched s h es →
      along within_capacity s h es → along no_correction s h es →
      in_sync (run s es) (held_from h es) := by
  induction es with
  | nil =>
    intro s h hs _ _ _
    exact hs
  | cons e es ih =>
    intro s h hs hm hw hn
    exact ih (step s e) (held_step h e)
      (step_in_sync s h e hs hm.1 hw.1 hn.1) hm.2 hw.2 hn.2

theorem along_no_correction_of_inverted (es : List Event) :
    ∀ (s : KB) (h : List Nat), (∀ e ∈ es, e.handler = Handler.sinvert) →
      along no_correction s h es := by
  induction es with
  | nil =>
    intro s h _
    trivial
  | cons e es ih =>
    intro s h hall
    refine ⟨fun ho => ?_, ih _ _ (fun e2 he2 => hall e2 (List.mem_cons_of_mem _ he2))⟩
    have h1 := hall e (List.mem_cons_self _ _)
    rw [ho.1] at h1
    exact Handler.noConfusion h1

theorem held_press_many (n : Nat) :
    held_inverted (press_many n) = (List.range n).reverse := by
  induction n with
  | zero => rfl
  | succ n ih =>
    have hstep : held_inverted (press_many (n + 1))
        = n :: held_inverted (press_many n) := by
      simp [held_inverted, held_from, press_many, List.range_succ,
        List.foldl_append, held_step, inv_press]
    rw [hstep, ih, List.range_succ, List.reverse_append]
    rfl

theorem restore_emitted_iff (s : KB) (h : List Nat) (e : Event)
    (hs : in_sync s h) (hm : matched s h e) (hn : no_correction s h e) :
    restore_emitted s e ↔
      e.handler = Handler.sinvert ∧ e.is_pressed = false ∧ h = [e.key] := by
  obtain ⟨hd, p, k, key⟩ := e
  obtain ⟨hcnt, _⟩ := hs
  cases hd
  · cases p
    · have hmem : key ∈ h := (hm rfl).2 rfl
      have hlen : h = [key] ↔ s.inverted_keys_pressed = 1 := by
        rw [hcnt]
        constructor
        · intro he
          rw [he]
          rfl
        · intro h1
          match h, hmem, h1 with
          | [a], hmem, _ =>
            have hka : key = a := by simpa using hmem
            rw [hka]
      simp only [restore_emitted, step_output, step, sinvert_release_eq,
        List.drop_left, true_and, hlen]
      by_cases h1 : s.inverted_keys_pressed = 1
      · simp [h1, restore_pair, List.infix_cons_iff]
      · simp [h1, restore_pair, List.infix_cons_iff]
    · simp only [restore_emitted, step_output, step, sinvert_press_eq,
        List.drop_left]
      cases s.physical_lshift_pressed <;> cases s.physical_rshift_pressed <;>
        simp [restore_pair, invert_pair, List.infix_cons_iff, KEY_LeftShift,
          KEY_RightShift]
  · simp only [restore_emitted, step_output, step]
    by_cases hl : k = KEY_LeftShift
    · subst hl
      rw [kprrel_lshift_eq]
      simp only [List.drop_left]
      by_cases h0 : s.inverted_keys_pressed = 0 <;>
        cases p <;> cases s.physical_rshift_pressed <;>
        simp [h0, restore_pair, invert_pair, List.infix_cons_iff]
    · by_cases hr : k = KEY_RightShift
      · subst hr
        rw [kprrel_rshift_eq]
        simp only [List.drop_left]
        by_cases h0 : s.inverted_keys_pressed = 0 <;>
          cases p <;> cases s.physical_lshift_pressed <;>
          simp [h0, restore_pair, invert_pair, List.infix_cons_iff]
      · by_cases hc : k = KEY_CapsLock ∨ k = KEYPAD_NumLock_Clear
        · rw [kprrel_lock_eq p k s hc]
          simp [restore_pair, List.infix_cons_iff]
        · rw [not_or] at hc
          rw [kprrel_other_eq p k s hl hr hc.1 hc.2]
          have hempty : h = [] := hn ⟨rfl, hl, hr, hc.1, hc.2⟩
          have h0 : s.inverted_keys_pressed = 0 := by simp [hcnt, hempty]
          simp [h0, restore_pair, List.infix_cons_iff]

theorem in_sync_init : in_sync init [] :=
  ⟨rfl, List.nodup_nil⟩

/-! ## The invariant of the data model -/

/-- C1 (as amended): in every state reached from power-on by a sequence of
calls of the two key functions in which no inverted key has a Shift keycode
and no inverted key is pressed at counter 255, the invariant holds: with a
positive counter Left Shift is emitted as not (physical left or physical
right) and Right Shift as released; with counter 0 both lines show the
physical state of their key. -/
theorem shift_invariant_reachable (es : List Event)
    (hk : ∀ e ∈ es, inverted_not_shift e)
    (hb : along below_limit init [] es) :
    shift_invariant (run init es) :=
  run_invariant es init [] (by decide) (by decide) hk hb

/-- C1 (witness): an inverted key is pressed, Left Shift is pressed
physically, the inverted key is released. -/
theorem shift_invariant_reachable_witness :
    ((∀ e ∈ [inv_press KEY_1_Exclamation 0, key_press KEY_LeftShift 1,
          inv_release KEY_1_Exclamation 0], inverted_not_shift e)
      ∧ along below_limit init []
          [inv_press KEY_1_Exclamation 0, key_press KEY_LeftShift 1,
            inv_release KEY_1_Exclamation 0])
    ∧ shift_invariant (run init
        [inv_press KEY_1_Exclamation 0, key_press KEY_LeftShift 1,
          inv_release KEY_1_Exclamation 0]) :=
  ⟨by decide,
   shift_invariant_reachable
     [inv_press KEY_1_Exclamation 0, key_press KEY_LeftShift 1,
       inv_release KEY_1_Exclamation 0] (by decide) (by decide)⟩

/-- C1 (counterexample): two sequences of calls from power-on after which the
invariant fails.  After 256 presses of inverted keys the 8-bit counter is
back at 0 while Left Shift is emitted pressed and no Shift key is physically
held.  After the single press of an inverted key whose keycode is Right
Shift the counter is 1 while Right Shift is emitted pressed. -/
theorem shift_invariant_fails :
    ((run init (press_many 256)).inverted_keys_pressed = 0
      ∧ lshift_line (run init (press_many 256)) = true
      ∧ (run init (press_many 256)).physical_lshift_pressed = false
      ∧ ¬ shift_invariant (run init (press_many 256)))
    ∧ ((run init [inv_press KEY_RightShift 0]).inverted_keys_pressed = 1
      ∧ rshift_line (run init [inv_press KEY_RightShift 0]) = true
      ∧ ¬ shift_invariant (run init [inv_press KEY_RightShift 0])) := by
  obtain ⟨hc, hl, _, hline⟩ := press_many_state 256
  have hc0 : (run init (press_many 256)).inverted_keys_pressed = 0 := hc
  have hl1 : lshift_line (run init (press_many 256)) = true :=
    (hline (by decide)).1
  refine ⟨⟨hc0, hl1, hl, ?_⟩, by decide⟩
  intro hinv
  have hphys := (hinv.2 hc0).1
  rw [hl1, hl] at hphys
  exact Bool.noConfusion hphys

/-! ## A press and a release of an inverted key -/

/-- C2 (as amended): for every engine state and every inverted key, a press
handled by `kbfun_shift_inverted_press_release` sets the counter to its
successor modulo 256, appends exactly three calls to the log, in this order:
Left Shift pressed iff neither physical Shift is held, Right Shift released,
the press of the key; and leaves the two physical booleans as they were. -/
theorem sinvert_press_effect (keycode : Nat) (s : KB) :
    (kbfun_shift_inverted_press_release true keycode s).inverted_keys_pressed
        = (s.inverted_keys_pressed + 1) % 256
    ∧ (kbfun_shift_inverted_press_release true keycode s).emitted
        = s.emitted ++
          [⟨!(s.physical_lshift_pressed || s.physical_rshift_pressed), KEY_LeftShift⟩,
           ⟨false, KEY_RightShift⟩, ⟨true, keycode⟩]
    ∧ (kbfun_shift_inverted_press_release true keycode s).physical_lshift_pressed
        = s.physical_lshift_pressed
    ∧ (kbfun_shift_inverted_press_release true keycode s).physical_rshift_pressed
        = s.physical_rshift_pressed := by
  rw [sinvert_press_eq]
  simp [invert_pair]

/-- C2 (counterexample): the state with counter 255 is reached by 255 presses
of inverted keys, and one more press leaves the counter at 0, not at 256. -/
theorem sinvert_press_wraps :
    (run init (press_many 255)).inverted_keys_pressed = 255
    ∧ (kbfun_shift_inverted_press_release true KEY_1_Exclamation
        (run init (press_many 255))).inverted_keys_pressed = 0
    ∧ ¬ ((kbfun_shift_inverted_press_release true KEY_1_Exclamation
        (run init (press_many 255))).inverted_keys_pressed
          = (run init (press_many 255)).inverted_keys_pressed + 1) := by
  have hc : (run init (press_many 255)).inverted_keys_pressed = 255 :=
    (press_many_state 255).1
  simp [sinvert_press_eq, hc]

/-- C3: for every engine state and every inverted key, a release handled by
`kbfun_shift_inverted_press_release` appends the release of the key first,
followed by the two restoring calls (Left Shift := physical left, Right
Shift := physical right) exactly when the counter is 1, and by nothing
otherwise; the counter ends at its old value minus one, clamped at zero
(truncated subtraction), and the physical booleans are as they were. -/
theorem sinvert_release_effect (keycode : Nat) (s : KB) :
    (kbfun_shift_inverted_press_release false keycode s).emitted
        = s.emitted ++ ⟨false, keycode⟩ ::
          (if s.inverted_keys_pressed = 1 then
            [⟨s.physical_lshift_pressed, KEY_LeftShift⟩,
             ⟨s.physical_rshift_pressed, KEY_RightShift⟩]
          else [])
    ∧ (kbfun_shift_inverted_press_release false keycode s).inverted_keys_pressed
        = s.inverted_keys_pressed - 1
    ∧ ((kbfun_shift_inverted_press_release false keycode s).inverted_keys_pressed = 0
        ↔ s.inverted_keys_pressed ≤ 1)
    ∧ (kbfun_shift_inverted_press_release false keycode s).physical_lshift_pressed
        = s.physical_lshift_pressed
    ∧ (kbfun_shift_inverted_press_release false keycode s).physical_rshift_pressed
        = s.physical_rshift_pressed := by
  rw [sinvert_release_eq]
  refine ⟨by simp [restore_pair], rfl, ?_, rfl, rfl⟩
  show s.inverted_keys_pressed - 1 = 0 ↔ s.inverted_keys_pressed ≤ 1
  omega

/-! ## Sequences of events -/

/-- C5 (as amended): take a sequence of events of inverted keys from power-on
in which every key is pressed only while not held and released only while
held, and fewer than 256 keys are held at any time.  After every event the
counter is non-negative and equals the number of inverted keys that were
pressed and whose release was not yet processed (a list without
repetition). -/
theorem counter_counts_held (es : List Event)
    (hall : ∀ e ∈ es, e.handler = Handler.sinvert)
    (hm : along matched init [] es) (hw : along within_capacity init [] es)
    (pre post : List Event) (hsplit : es = pre ++ post) :
    0 ≤ (run init pre).inverted_keys_pressed
    ∧ (run init pre).inverted_keys_pressed = (held_inverted pre).length
    ∧ (held_inverted pre).Nodup := by
  subst hsplit
  have hs : in_sync (run init pre) (held_from [] pre) :=
    run_in_sync pre init [] in_sync_init
      (along_initial matched pre init [] _ hm)
      (along_initial within_capacity pre init [] _ hw)
      (along_no_correction_of_inverted pre init []
        (fun e he => hall e (List.mem_append_left _ he)))
  exact ⟨Nat.zero_le _, hs.1, hs.2⟩

/-- C5 (witness): three inverted keys are pressed and the second is released;
after the first three events the counter is 3. -/
theorem counter_counts_held_witness :
    ((∀ e ∈ [inv_press 30 0, inv_press 31 1, inv_press 32 2, inv_release 31 1],
          e.handler = Handler.sinvert)
      ∧ along matched init []
          [inv_press 30 0, inv_press 31 1, inv_press 32 2, inv_release 31 1]
      ∧ along within_capacity init []
          [inv_press 30 0, inv_press 31 1, inv_press 32 2, inv_release 31 1])
    ∧ (run init [inv_press 30 0, inv_press 31 1, inv_press 32 2]).inverted_keys_pressed
        = (held_inverted [inv_press 30 0, inv_press 31 1, inv_press 32 2]).length :=
  ⟨by decide,
   (counter_counts_held
      [inv_press 30 0, inv_press 31 1, inv_press 32 2, inv_release 31 1]
      (by decide) (by decide) (by decide)
      [inv_press 30 0, inv_press 31 1, inv_press 32 2] [inv_release 31 1]
      rfl).2.1⟩

/-- C5 (counterexample): two sequences of events of inverted keys from
power-on.  After the press of key 0 and a release of key 1, which was never
pressed, the counter is 0 while key 0 is still held.  After the presses of
256 different keys the 8-bit counter is 0 while 256 keys are held. -/
theorem counter_miscounts :
    ((run init [inv_press 30 0, inv_release 31 1]).inverted_keys_pressed = 0
      ∧ held_inverted [inv_press 30 0, inv_release 31 1] = [0])
    ∧ ((run init (press_many 256)).inverted_keys_pressed = 0
      ∧ (held_inverted (press_many 256)).length = 256
      ∧ (held_inverted (press_many 256)).Nodup) := by
  refine ⟨by decide, (press_many_state 256).1, ?_, ?_⟩
  · rw [held_press_many]
    simp
  · rw [held_press_many]
    exact List.nodup_reverse.mpr (List.nodup_range 256)

/-! ## Nested inverted keys, Shift keys and ordinary keys -/

/-- C6: from every state with counter 2, whatever the physical Shift state,
the release of inverted key `a` appends only the release of `a` and leaves
the counter at 1; the release of inverted key `b` after it appends the
release of `b`, then Left Shift := physical left and Right Shift := physical
right, and leaves the counter at 0. -/
theorem two_held_release_order (a b : Nat) (s : KB)
    (h : s.inverted_keys_pressed = 2) :
    (kbfun_shift_inverted_press_release false a s).emitted
        = s.emitted ++ [⟨false, a⟩]
    ∧ (kbfun_shift_inverted_press_release false a s).inverted_keys_pressed = 1
    ∧ (kbfun_shift_inverted_press_release false b
        (kbfun_shift_inverted_press_release false a s)).emitted
        = (kbfun_shift_inverted_press_release false a s).emitted ++
          [⟨false, b⟩, ⟨s.physical_lshift_pressed, KEY_LeftShift⟩,
           ⟨s.physical_rshift_pressed, KEY_RightShift⟩]
    ∧ (kbfun_shift_inverted_press_release false b
        (kbfun_shift_inverted_press_release false a s)).inverted_keys_pressed = 0 := by
  simp [sinvert_release_eq, h, restore_pair]

/-- C6 (witness): the state after the presses of two inverted keys has counter
2, and the two releases behave as stated. -/
theorem two_held_release_order_witness :
    (run init (press_many 2)).inverted_keys_pressed = 2
    ∧ (kbfun_shift_inverted_press_release false 30
        (run init (press_many 2))).emitted
        = (run init (press_many 2)).emitted ++ [⟨false, 30⟩]
    ∧ (kbfun_shift_inverted_press_release false 31
        (kbfun_shift_inverted_press_release false 30
          (run init (press_many 2)))).inverted_keys_pressed = 0 :=
  ⟨by decide,
   (two_held_release_order 30 31 (run init (press_many 2)) (by decide)).1,
   (two_held_release_order 30 31 (run init (press_many 2)) (by decide)).2.2.2⟩

/-- C7 (as amended): in every state with counter at least 1 whose Shift lines
are in the forced inverted state, the press of a further inverted key (one
whose keycode is not a Shift key) appends the two forcing calls again before
the press of the key, and these leave the emitted Left Shift and Right Shift
states as they were; and a release appends only the release of the key
exactly when the counter is not 1. -/
theorem further_press_reforces (keycode : Nat) (s : KB)
    (h1 : 1 ≤ s.inverted_keys_pressed) (hf : forced s)
    (hl : keycode ≠ KEY_LeftShift) (hr : keycode ≠ KEY_RightShift) :
    (kbfun_shift_inverted_press_release true keycode s).emitted
        = s.emitted ++
          [⟨!(s.physical_lshift_pressed || s.physical_rshift_pressed), KEY_LeftShift⟩,
           ⟨false, KEY_RightShift⟩, ⟨true, keycode⟩]
    ∧ lshift_line (kbfun_shift_inverted_press_release true keycode s)
        = lshift_line s
    ∧ rshift_line (kbfun_shift_inverted_press_release true keycode s)
        = rshift_line s
    ∧ ((kbfun_shift_inverted_press_release false keycode s).emitted
        = s.emitted ++ [⟨false, keycode⟩] ↔ 2 ≤ s.inverted_keys_pressed) := by
  obtain ⟨hfl, hfr⟩ := hf
  have hl : keycode ≠ 225 := hl
  have hr : keycode ≠ 229 := hr
  refine ⟨by simp [sinvert_press_eq, invert_pair], ?_, ?_, ?_⟩
  · rw [hfl]
    simp [sinvert_press_eq, invert_pair, lshift_line, line_state_append,
      apply_emit, hl, KEY_LeftShift, KEY_RightShift]
  · rw [hfr]
    simp [sinvert_press_eq, invert_pair, rshift_line, line_state_append,
      apply_emit, hr, KEY_LeftShift, KEY_RightShift]
  · rw [sinvert_release_eq]
    by_cases hc : s.inverted_keys_pressed = 1
    · simp [hc, restore_pair]
    · simp [hc]
      omega

/-- C7 (witness): the state after the press of one inverted key has counter 1
and forced lines; the press of a second inverted key appends three calls. -/
theorem further_press_reforces_witness :
    (1 ≤ (run init (press_many 1)).inverted_keys_pressed
      ∧ forced (run init (press_many 1)))
    ∧ (kbfun_shift_inverted_press_release true 31
        (run init (press_many 1))).emitted
        = (run init (press_many 1)).emitted ++
          [⟨true, KEY_LeftShift⟩, ⟨false, KEY_RightShift⟩, ⟨true, 31⟩] :=
  ⟨by decide,
   (further_press_reforces 31 (run init (press_many 1)) (by decide) (by decide)
      (by decide) (by decide)).1⟩

/-- C7 (counterexample): with one inverted key held (counter 1), the press of
a second inverted key does not append only the press of that key: it appends
a Left Shift call and a Right Shift call before it. -/
theorem further_press_emits_shift :
    (run init (press_many 1)).inverted_keys_pressed = 1
    ∧ (kbfun_shift_inverted_press_release true 31
        (run init (press_many 1))).emitted
        ≠ (run init (press_many 1)).emitted ++ [⟨true, 31⟩]
    ∧ step_output (run init (press_many 1)) (inv_press 31 1)
        = [⟨true, KEY_LeftShift⟩, ⟨false, KEY_RightShift⟩, ⟨true, 31⟩] := by
  decide

/-- C8: for every state and every event whose keycode is Left Shift or Right
Shift, `kbfun_press_release_supporting_shift_inversion` sets the physical
boolean of that key to `is_pressed` and leaves the other; the counter is
unchanged; if the counter is positive the step appends exactly the two
forcing calls computed from the updated booleans (Left Shift := not (left or
right), then Right Shift released) and nothing else, so the call for the key
itself is not made and the lines are in the forced state afterwards;
otherwise it appends exactly the one call for the key, whose line then shows
`is_pressed`. -/
theorem kprrel_shift_effect (is_pressed : Bool) (keycode : Nat) (s : KB)
    (hk : keycode = KEY_LeftShift ∨ keycode = KEY_RightShift) :
    (kbfun_press_release_supporting_shift_inversion is_pressed keycode s).physical_lshift_pressed
        = (if keycode = KEY_LeftShift then is_pressed else s.physical_lshift_pressed)
    ∧ (kbfun_press_release_supporting_shift_inversion is_pressed keycode s).physical_rshift_pressed
        = (if keycode = KEY_RightShift then is_pressed else s.physical_rshift_pressed)
    ∧ (kbfun_press_release_supporting_shift_inversion is_pressed keycode s).inverted_keys_pressed
        = s.inverted_keys_pressed
    ∧ (kbfun_press_release_supporting_shift_inversion is_pressed keycode s).emitted
        = s.emitted ++
          (if 0 < s.inverted_keys_pressed then
            [⟨!((kbfun_press_release_supporting_shift_inversion is_pressed keycode s).physical_lshift_pressed
                || (kbfun_press_release_supporting_shift_inversion is_pressed keycode s).physical_rshift_pressed),
              KEY_LeftShift⟩,
             ⟨false, KEY_RightShift⟩]
          else [⟨is_pressed, keycode⟩])
    ∧ (if 0 < s.inverted_keys_pressed then
        forced (kbfun_press_release_supporting_shift_inversion is_pressed keycode s)
      else
        line_state keycode
          (kbfun_press_release_supporting_shift_inversion is_pressed keycode s).emitted
          = is_pressed) := by
  rcases hk with hk | hk
  · subst hk
    rw [kprrel_lshift_eq]
    by_cases h0 : s.inverted_keys_pressed = 0
    · simp [h0, line_state_append, apply_emit, KEY_LeftShift, KEY_RightShift]
    · have hp : 0 < s.inverted_keys_pressed := Nat.pos_of_ne_zero h0
      simp [h0, hp, invert_pair, forced, lshift_line, rshift_line,
        line_state_append, apply_emit, KEY_LeftShift, KEY_RightShift]
  · subst hk
    rw [kprrel_rshift_eq]
    by_cases h0 : s.inverted_keys_pressed = 0
    · simp [h0, line_state_append, apply_emit, KEY_LeftShift, KEY_RightShift]
    · have hp : 0 < s.inverted_keys_pressed := Nat.pos_of_ne_zero h0
      simp [h0, hp, invert_pair, forced, lshift_line, rshift_line,
        line_state_append, apply_emit, KEY_LeftShift, KEY_RightShift]

/-- C8 (witness): a physical Left Shift press while one inverted key is held
appends Left Shift released and Right Shift released. -/
theorem kprrel_shift_effect_witness :
    (KEY_LeftShift = KEY_LeftShift ∨ KEY_LeftShift = KEY_RightShift)
    ∧ (kbfun_press_release_supporting_shift_inversion true KEY_LeftShift
        (run init (press_many 1))).emitted
        = (run init (press_many 1)).emitted ++
          [⟨false, KEY_LeftShift⟩, ⟨false, KEY_RightShift⟩] :=
  ⟨Or.inl rfl,
   (kprrel_shift_effect true KEY_LeftShift (run init (press_many 1))
      (Or.inl rfl)).2.2.2.1⟩

/-- C9 (as amended): in every state with positive counter whose Shift lines
are forced, a physical Shift press handled by
`kbfun_press_release_supporting_shift_inversion` keeps the lines forced for
the updated booleans: Left Shift and Right Shift are both emitted released
afterwards, so Right Shift is unchanged and Left Shift is unchanged exactly
when a Shift key was physically held before; the counter is unchanged, the
boolean of the pressed key becomes true and the other boolean is as it
was. -/
theorem shift_press_while_inverted (keycode : Nat) (s : KB)
    (hk : keycode = KEY_LeftShift ∨ keycode = KEY_RightShift)
    (hc : 0 < s.inverted_keys_pressed) (hf : forced s) :
    forced (kbfun_press_release_supporting_shift_inversion true keycode s)
    ∧ lshift_line (kbfun_press_release_supporting_shift_inversion true keycode s)
        = false
    ∧ rshift_line (kbfun_press_release_supporting_shift_inversion true keycode s)
        = rshift_line s
    ∧ (lshift_line (kbfun_press_release_supporting_shift_inversion true keycode s)
        = lshift_line s
        ↔ (s.physical_lshift_pressed || s.physical_rshift_pressed) = true)
    ∧ (kbfun_press_release_supporting_shift_inversion true keycode s).inverted_keys_pressed
        = s.inverted_keys_pressed
    ∧ (kbfun_press_release_supporting_shift_inversion true keycode s).physical_lshift_pressed
        = (if keycode = KEY_LeftShift then true else s.physical_lshift_pressed)
    ∧ (kbfun_press_release_supporting_shift_inversion true keycode s).physical_rshift_pressed
        = (if keycode = KEY_RightShift then true else s.physical_rshift_pressed) := by
  obtain ⟨hfl, hfr⟩ := hf
  have h0 : s.inverted_keys_pressed ≠ 0 := Nat.pos_iff_ne_zero.mp hc
  rcases hk with hk | hk
  · subst hk
    rw [kprrel_lshift_eq, hfl, hfr]
    simp [forced, lshift_line, rshift_line, line_state_append, apply_emit,
      invert_pair, h0, KEY_LeftShift, KEY_RightShift]
    cases s.physical_lshift_pressed <;> cases s.physical_rshift_pressed <;> simp
  · subst hk
    rw [kprrel_rshift_eq, hfl, hfr]
    simp [forced, lshift_line, rshift_line, line_state_append, apply_emit,
      invert_pair, h0, KEY_LeftShift, KEY_RightShift]
    cases s.physical_lshift_pressed <;> cases s.physical_rshift_pressed <;> simp

/-- C9 (witness): with one inverted key held, a physical Right Shift press
leaves the lines forced. -/
theorem shift_press_while_inverted_witness :
    ((KEY_RightShift = KEY_LeftShift ∨ KEY_RightShift = KEY_RightShift)
      ∧ 0 < (run init (press_many 1)).inverted_keys_pressed
      ∧ forced (run init (press_many 1)))
    ∧ forced (kbfun_press_release_supporting_shift_inversion true KEY_RightShift
        (run init (press_many 1))) :=
  ⟨⟨Or.inr rfl, by decide, by decide⟩,
   (shift_press_while_inverted KEY_RightShift (run init (press_many 1))
      (Or.inr rfl) (by decide) (by decide)).1⟩

/-- C9 (counterexample): after the press of one inverted key from power-on
(counter 1, Left Shift emitted pressed), a physical Left Shift press changes
the emitted Left Shift state from pressed to released. -/
theorem shift_press_changes_line :
    0 < (run init [inv_press KEY_1_Exclamation 0]).inverted_keys_pressed
    ∧ lshift_line (run init [inv_press KEY_1_Exclamation 0]) = true
    ∧ lshift_line (run init [inv_press KEY_1_Exclamation 0, key_press KEY_LeftShift 1])
        = false
    ∧ lshift_line (kbfun_press_release_supporting_shift_inversion true KEY_LeftShift
        (run init [inv_press KEY_1_Exclamation 0]))
        ≠ lshift_line (run init [inv_press KEY_1_Exclamation 0]) := by
  decide

/-- C10: for every state with positive counter and every press or release of
a key whose keycode is none of Left Shift, Right Shift, Caps Lock and Num
Lock, `kbfun_press_release_supporting_shift_inversion` resets the counter to
zero and appends Left Shift := physical left, Right Shift := physical right,
and only then the call for the key itself; the physical booleans are as they
were. -/
theorem ordinary_key_restores_first (is_pressed : Bool) (keycode : Nat) (s : KB)
    (hc : 0 < s.inverted_keys_pressed)
    (hl : keycode ≠ KEY_LeftShift) (hr : keycode ≠ KEY_RightShift)
    (hcl : keycode ≠ KEY_CapsLock) (hnl : keycode ≠ KEYPAD_NumLock_Clear) :
    (kbfun_press_release_supporting_shift_inversion is_pressed keycode s).inverted_keys_pressed
        = 0
    ∧ (kbfun_press_release_supporting_shift_inversion is_pressed keycode s).emitted
        = s.emitted ++
          [⟨s.physical_lshift_pressed, KEY_LeftShift⟩,
           ⟨s.physical_rshift_pressed, KEY_RightShift⟩,
           ⟨is_pressed, keycode⟩]
    ∧ (kbfun_press_release_supporting_shift_inversion is_pressed keycode s).physical_lshift_pressed
        = s.physical_lshift_pressed
    ∧ (kbfun_press_release_supporting_shift_inversion is_pressed keycode s).physical_rshift_pressed
        = s.physical_rshift_pressed := by
  have h0 : s.inverted_keys_pressed ≠ 0 := Nat.pos_iff_ne_zero.mp hc
  rw [kprrel_other_eq is_pressed keycode s hl hr hcl hnl]
  simp [h0, restore_pair]

/-- C10 (witness): with one inverted key held, the press of `q` resets the
counter and appends the two restoring calls before the press of `q`. -/
theorem ordinary_key_restores_first_witness :
    (0 < (run init (press_many 1)).inverted_keys_pressed
      ∧ KEY_q_Q ≠ KEY_LeftShift ∧ KEY_q_Q ≠ KEY_RightShift
      ∧ KEY_q_Q ≠ KEY_CapsLock ∧ KEY_q_Q ≠ KEYPAD_NumLock_Clear)
    ∧ (kbfun_press_release_supporting_shift_inversion true KEY_q_Q
        (run init (press_many 1))).emitted
        = (run init (press_many 1)).emitted ++
          [⟨false, KEY_LeftShift⟩, ⟨false, KEY_RightShift⟩, ⟨true, KEY_q_Q⟩] :=
  ⟨by decide,
   (ordinary_key_restores_first true KEY_q_Q (run init (press_many 1))
      (by decide) (by decide) (by decide) (by decide) (by decide)).2.1⟩

/-! ## Lock keys, unmatched releases and frames -/

/-- C11: for every state and every press or release whose keycode is Caps
Lock or Num Lock, `kbfun_press_release_supporting_shift_inversion` appends
exactly one call, the one for the key itself, and leaves the counter and the
two physical booleans as they were. -/
theorem lock_key_effect (is_pressed : Bool) (keycode : Nat) (s : KB)
    (hk : keycode = KEY_CapsLock ∨ keycode = KEYPAD_NumLock_Clear) :
    (kbfun_press_release_supporting_shift_inversion is_pressed keycode s).emitted
        = s.emitted ++ [⟨is_pressed, keycode⟩]
    ∧ (kbfun_press_release_supporting_shift_inversion is_pressed keycode s).inverted_keys_pressed
        = s.inverted_keys_pressed
    ∧ (kbfun_press_release_supporting_shift_inversion is_pressed keycode s).physical_lshift_pressed
        = s.physical_lshift_pressed
    ∧ (kbfun_press_release_supporting_shift_inversion is_pressed keycode s).physical_rshift_pressed
        = s.physical_rshift_pressed := by
  rw [kprrel_lock_eq is_pressed keycode s hk]
  exact ⟨rfl, rfl, rfl, rfl⟩

/-- C11 (witness): Caps Lock is pressed while one inverted key is held. -/
theorem lock_key_effect_witness :
    (KEY_CapsLock = KEY_CapsLock ∨ KEY_CapsLock = KEYPAD_NumLock_Clear)
    ∧ (kbfun_press_release_supporting_shift_inversion true KEY_CapsLock
        (run init (press_many 1))).emitted
        = (run init (press_many 1)).emitted ++ [⟨true, KEY_CapsLock⟩]
    ∧ (kbfun_press_release_supporting_shift_inversion true KEY_CapsLock
        (run init (press_many 1))).inverted_keys_pressed = 1 :=
  ⟨Or.inl rfl,
   (lock_key_effect true KEY_CapsLock (run init (press_many 1)) (Or.inl rfl)).1,
   (lock_key_effect true KEY_CapsLock (run init (press_many 1)) (Or.inl rfl)).2.1⟩

/-- C12: in every state with counter 0, the release of an inverted key leaves
the counter at 0, appends exactly one call, the release of the key, and
leaves the two physical booleans as they were; when the keycode of the key is
not a Shift key the emitted states of both Shift keys are as before. -/
theorem unmatched_release_effect (keycode : Nat) (s : KB)
    (h0 : s.inverted_keys_pressed = 0) :
    (kbfun_shift_inverted_press_release false keycode s).inverted_keys_pressed = 0
    ∧ (kbfun_shift_inverted_press_release false keycode s).emitted
        = s.emitted ++ [⟨false, keycode⟩]
    ∧ (kbfun_shift_inverted_press_release false keycode s).physical_lshift_pressed
        = s.physical_lshift_pressed
    ∧ (kbfun_shift_inverted_press_release false keycode s).physical_rshift_pressed
        = s.physical_rshift_pressed
    ∧ (keycode ≠ KEY_LeftShift → keycode ≠ KEY_RightShift →
        lshift_line (kbfun_shift_inverted_press_release false keycode s)
            = lshift_line s
          ∧ rshift_line (kbfun_shift_inverted_press_release false keycode s)
            = rshift_line s) := by
  rw [sinvert_release_eq]
  refine ⟨by simp [h0], by simp [h0], rfl, rfl, fun hl hr => ?_⟩
  simp only [h0]
  exact ⟨line_state_snoc_ne _ _ _ hl, line_state_snoc_ne _ _ _ hr⟩

/-- C12 (witness): the release of the `1 !` key at power-on. -/
theorem unmatched_release_effect_witness :
    init.inverted_keys_pressed = 0
    ∧ (kbfun_shift_inverted_press_release false KEY_1_Exclamation init).inverted_keys_pressed
        = 0
    ∧ (kbfun_shift_inverted_press_release false KEY_1_Exclamation init).emitted
        = init.emitted ++ [⟨false, KEY_1_Exclamation⟩] :=
  ⟨rfl,
   (unmatched_release_effect KEY_1_Exclamation init rfl).1,
   (unmatched_release_effect KEY_1_Exclamation init rfl).2.1⟩

/-- C14: in every state with counter 0,
`kbfun_press_release_supporting_shift_inversion` appends, for every keycode
and either value of `is_pressed`, exactly the one call for the key itself, and
the counter stays 0. -/
theorem plain_press_release_at_zero (is_pressed : Bool) (keycode : Nat) (s : KB)
    (h0 : s.inverted_keys_pressed = 0) :
    (kbfun_press_release_supporting_shift_inversion is_pressed keycode s).emitted
        = s.emitted ++ [⟨is_pressed, keycode⟩]
    ∧ (kbfun_press_release_supporting_shift_inversion is_pressed keycode s).inverted_keys_pressed
        = 0 := by
  by_cases hl : keycode = KEY_LeftShift
  · subst hl
    rw [kprrel_lshift_eq]
    simp [h0]
  · by_cases hr : keycode = KEY_RightShift
    · subst hr
      rw [kprrel_rshift_eq]
      simp [h0]
    · by_cases hc : keycode = KEY_CapsLock ∨ keycode = KEYPAD_NumLock_Clear
      · rw [kprrel_lock_eq is_pressed keycode s hc]
        exact ⟨rfl, h0⟩
      · rw [not_or] at hc
        rw [kprrel_other_eq is_pressed keycode s hl hr hc.1 hc.2]
        simp [h0]

/-- C14 (witness): Left Shift is pressed at power-on. -/
theorem plain_press_release_at_zero_witness :
    init.inverted_keys_pressed = 0
    ∧ (kbfun_press_release_supporting_shift_inversion true KEY_LeftShift init).emitted
        = init.emitted ++ [⟨true, KEY_LeftShift⟩] :=
  ⟨rfl, (plain_press_release_at_zero true KEY_LeftShift init rfl).1⟩

/-- C15 (as amended): in every state in which no Shift key is physically
held, the press of an inverted key appends the two Shift calls (Left Shift
pressed, Right Shift released) and then the press of the key, so every Shift
call comes before the press of the key when its keycode is not a Shift key;
the release of an inverted key appends the release of the key first, and
after it the two Shift calls (both released) when the counter is 1, nothing
otherwise. -/
theorem shift_order_press_release (keycode key : Nat) (s : KB)
    (hl : s.physical_lshift_pressed = false)
    (hr : s.physical_rshift_pressed = false) :
    step_output s (inv_press keycode key)
        = [⟨true, KEY_LeftShift⟩, ⟨false, KEY_RightShift⟩, ⟨true, keycode⟩]
    ∧ step_output s (inv_release keycode key)
        = ⟨false, keycode⟩ ::
          (if s.inverted_keys_pressed = 1 then
            [⟨false, KEY_LeftShift⟩, ⟨false, KEY_RightShift⟩]
          else [])
    ∧ (keycode ≠ KEY_LeftShift → keycode ≠ KEY_RightShift →
        shift_calls_precede ⟨true, keycode⟩
          (step_output s (inv_press keycode key))) := by
  have hpress : step_output s (inv_press keycode key)
      = [⟨true, KEY_LeftShift⟩, ⟨false, KEY_RightShift⟩, ⟨true, keycode⟩] := by
    simp [step_output, step, inv_press, sinvert_press_eq, invert_pair, hl, hr]
  refine ⟨hpress, ?_, fun hkl hkr => ?_⟩
  · simp [step_output, step, inv_release, sinvert_release_eq, restore_pair,
      hl, hr]
  · have hkl2 : ¬ (KEY_LeftShift = keycode) := fun h => hkl h.symm
    have hkr2 : ¬ (KEY_RightShift = keycode) := fun h => hkr h.symm
    rw [hpress]
    simp [shift_calls_precede, List.dropWhile, hkl2, hkr2]

/-- C15 (witness): the `2 @` key is pressed or released while the `1 !` key
is held and no Shift key is. -/
theorem shift_order_press_release_witness :
    ((run init (press_many 1)).physical_lshift_pressed = false
      ∧ (run init (press_many 1)).physical_rshift_pressed = false)
    ∧ step_output (run init (press_many 1)) (inv_press KEY_2_At 1)
        = [⟨true, KEY_LeftShift⟩, ⟨false, KEY_RightShift⟩, ⟨true, KEY_2_At⟩]
    ∧ step_output (run init (press_many 1)) (inv_release KEY_2_At 1)
        = [⟨false, KEY_2_At⟩, ⟨false, KEY_LeftShift⟩, ⟨false, KEY_RightShift⟩] :=
  ⟨by decide,
   (shift_order_press_release KEY_2_At 1 (run init (press_many 1))
      (by decide) (by decide)).1,
   by
    have h := (shift_order_press_release KEY_2_At 1 (run init (press_many 1))
      (by decide) (by decide)).2.1
    rw [h]
    decide⟩

/-- C15 (counterexample): no Shift key is physically held and the `1 !` key,
an inverted key, is pressed and then released.  The press appends the two
Shift calls before the press of the key; the release appends the release of
the key first and the two Shift calls after it, so on the release the Shift
calls do not come before the call for the key. -/
theorem release_emits_shift_after_key :
    (run init [inv_press KEY_1_Exclamation 0]).physical_lshift_pressed = false
    ∧ (run init [inv_press KEY_1_Exclamation 0]).physical_rshift_pressed = false
    ∧ step_output init (inv_press KEY_1_Exclamation 0)
        = [⟨true, KEY_LeftShift⟩, ⟨false, KEY_RightShift⟩,
           ⟨true, KEY_1_Exclamation⟩]
    ∧ step_output (run init [inv_press KEY_1_Exclamation 0])
          (inv_release KEY_1_Exclamation 0)
        = [⟨false, KEY_1_Exclamation⟩, ⟨false, KEY_LeftShift⟩,
           ⟨false, KEY_RightShift⟩]
    ∧ ¬ shift_calls_precede ⟨false, KEY_1_Exclamation⟩
        (step_output (run init [inv_press KEY_1_Exclamation 0])
          (inv_release KEY_1_Exclamation 0)) := by
  decide

/-- C17: `kbfun_shift_inverted_press_release` never changes a physical
boolean; `kbfun_press_release_supporting_shift_inversion` sets
`physical_lshift_pressed` to `is_pressed` when the keycode is Left Shift and
leaves it otherwise, and sets `physical_rshift_pressed` to `is_pressed` when
the keycode is Right Shift and leaves it otherwise. -/
theorem physical_booleans_frame (is_pressed : Bool) (keycode : Nat) (s : KB) :
    (kbfun_shift_inverted_press_release is_pressed keycode s).physical_lshift_pressed
        = s.physical_lshift_pressed
    ∧ (kbfun_shift_inverted_press_release is_pressed keycode s).physical_rshift_pressed
        = s.physical_rshift_pressed
    ∧ (kbfun_press_release_supporting_shift_inversion is_pressed keycode s).physical_lshift_pressed
        = (if keycode = KEY_LeftShift then is_pressed else s.physical_lshift_pressed)
    ∧ (kbfun_press_release_supporting_shift_inversion is_pressed keycode s).physical_rshift_pressed
        = (if keycode = KEY_RightShift then is_pressed else s.physical_rshift_pressed) := by
  refine ⟨?_, ?_, ?_⟩
  · cases is_pressed
    · rw [sinvert_release_eq]
    · rw [sinvert_press_eq]
  · cases is_pressed
    · rw [sinvert_release_eq]
    · rw [sinvert_press_eq]
  · by_cases hl : keycode = KEY_LeftShift
    · subst hl
      rw [kprrel_lshift_eq]
      simp [KEY_LeftShift, KEY_RightShift]
    · by_cases hr : keycode = KEY_RightShift
      · subst hr
        rw [kprrel_rshift_eq]
        simp [KEY_LeftShift, KEY_RightShift]
      · by_cases hc : keycode = KEY_CapsLock ∨ keycode = KEYPAD_NumLock_Clear
        · rw [kprrel_lock_eq is_pressed keycode s hc]
          simp [hl, hr]
        · rw [not_or] at hc
          rw [kprrel_other_eq is_pressed keycode s hl hr hc.1 hc.2]
          simp [hl, hr]

/-! ## Counter and all held keys -/

theorem kprrel_counter_le (is_pressed : Bool) (keycode : Nat) (s : KB) :
    (kbfun_press_release_supporting_shift_inversion is_pressed keycode s).inverted_keys_pressed
      ≤ s.inverted_keys_pressed := by
  by_cases hl : keycode = KEY_LeftShift
  · subst hl; rw [kprrel_lshift_eq]
  · by_cases hr : keycode = KEY_RightShift
    · subst hr; rw [kprrel_rshift_eq]
    · by_cases hc : keycode = KEY_CapsLock ∨ keycode = KEYPAD_NumLock_Clear
      · rw [kprrel_lock_eq is_pressed keycode s hc]
      · rw [not_or] at hc
        rw [kprrel_other_eq is_pressed keycode s hl hr hc.1 hc.2]
        exact Nat.zero_le _

theorem step_counter_le_held (s : KB) (h : List (Handler × Nat)) (e : Event)
    (hc : s.inverted_keys_pressed
      ≤ (h.filter (fun x => decide (x.1 = Handler.sinvert))).length)
    (hfresh : e.is_pressed = true → (e.handler, e.key) ∉ h) :
    (step s e).inverted_keys_pressed
      ≤ ((held_keys_step h e).filter
          (fun x => decide (x.1 = Handler.sinvert))).length := by
  obtain ⟨hd, p, k, key⟩ := e
  cases hd
  · cases p
    · simp only [step, sinvert_release_eq, held_keys_step]
      simp only [Bool.false_eq_true, if_false]
      rw [← List.erase_filter, List.length_erase]
      split <;> omega
    · have hnot : (Handler.sinvert, key) ∉ h := hfresh rfl
      simp only [step, sinvert_press_eq, held_keys_step]
      simp only [if_true, if_neg hnot]
      rw [List.filter_cons_of_pos (by simp), List.length_cons]
      omega
  · have hle := kprrel_counter_le p k s
    simp only [step, held_keys_step]
    cases p
    · simp only [Bool.false_eq_true, if_false]
      rw [← List.erase_filter, List.erase_of_not_mem]
      · omega
      · intro hmem
        have := (List.mem_filter.mp hmem).2
        simp at this
    · have hnot : (Handler.kprrel, key) ∉ h := hfresh rfl
      simp only [if_true, if_neg hnot]
      rw [List.filter_cons_of_neg (by simp)]
      omega

theorem run_counter_le_held (es : List Event) :
    ∀ (s : KB) (h : List (Handler × Nat)),
      s.inverted_keys_pressed
        ≤ (h.filter (fun x => decide (x.1 = Handler.sinvert))).length →
      fresh_presses h es →
      (run s es).inverted_keys_pressed
        ≤ ((es.foldl held_keys_step h).filter
            (fun x => decide (x.1 = Handler.sinvert))).length := by
  induction es with
  | nil =>
    intro s h hc _
    exact hc
  | cons e es ih =>
    intro s h hc hf
    exact ih (step s e) (held_keys_step h e)
      (step_counter_le_held s h e hc hf.1) hf.2

theorem held_keys_nodup (es : List Event) :
    ∀ (h : List (Handler × Nat)), h.Nodup →
      (es.foldl held_keys_step h).Nodup := by
  induction es with
  | nil =>
    intro h hn
    exact hn
  | cons e es ih =>
    intro h hn
    refine ih (held_keys_step h e) ?_
    unfold held_keys_step
    by_cases hp : e.is_pressed = true
    · rw [if_pos hp]
      by_cases hm : (e.handler, e.key) ∈ h
      · rw [if_pos hm]
        exact hn
      · rw [if_neg hm]
        exact List.nodup_cons.mpr ⟨hm, hn⟩
    · rw [if_neg hp]
      exact hn.erase _

/-- C13 (as amended): in every state reached from power-on by press and
release events through the two key functions in which every press is the
press of a key that is not held at that point, the counter is at least 0 and
at most the number of keys held, the keys whose press was handled and whose
release was not yet; the held keys are a list without repetition. -/
theorem counter_le_held_keys (es : List Event) (hf : fresh_presses [] es) :
    0 ≤ (run init es).inverted_keys_pressed
    ∧ (run init es).inverted_keys_pressed ≤ (held_keys es).length
    ∧ (held_keys es).Nodup := by
  refine ⟨Nat.zero_le _, ?_, held_keys_nodup es [] List.nodup_nil⟩
  exact Nat.le_trans (run_counter_le_held es init [] (Nat.le_refl _) hf)
    (List.length_filter_le _ _)

/-- C13 (witness): two inverted keys and Left Shift are pressed, a key that
was never pressed is released, then the first inverted key is released; the
counter is 0 and two keys are held. -/
theorem counter_le_held_keys_witness :
    fresh_presses []
        [inv_press 30 0, inv_press 31 1, key_press KEY_LeftShift 2,
          inv_release 32 5, inv_release 30 0]
    ∧ (run init
        [inv_press 30 0, inv_press 31 1, key_press KEY_LeftShift 2,
          inv_release 32 5, inv_release 30 0]).inverted_keys_pressed
        ≤ (held_keys
            [inv_press 30 0, inv_press 31 1, key_press KEY_LeftShift 2,
              inv_release 32 5, inv_release 30 0]).length
    ∧ (held_keys
        [inv_press 30 0, inv_press 31 1, key_press KEY_LeftShift 2,
          inv_release 32 5, inv_release 30 0]).length = 2 :=
  ⟨by decide,
   (counter_le_held_keys
      [inv_press 30 0, inv_press 31 1, key_press KEY_LeftShift 2,
        inv_release 32 5, inv_release 30 0] (by decide)).2.1,
   by decide⟩

/-- C13 (counterexample): the same inverted key is pressed twice from
power-on, its release in between not having been processed.  The counter is
2 while one key is held. -/
theorem counter_exceeds_held_keys :
    (run init [inv_press 30 0, inv_press 30 0]).inverted_keys_pressed = 2
    ∧ held_keys [inv_press 30 0, inv_press 30 0] = [(Handler.sinvert, 0)]
    ∧ ¬ ((run init [inv_press 30 0, inv_press 30 0]).inverted_keys_pressed
          ≤ (held_keys [inv_press 30 0, inv_press 30 0]).length) := by
  decide

/-! ## The layout tables -/

set_option maxRecDepth 100000 in
theorem tables_cover_positions :
    ∀ layer < layers, ∀ slot < slots,
      (kb_layout_get layer slot).isSome = true
        ∧ (kb_layout_press_get layer slot).isSome = true
        ∧ (kb_layout_release_get layer slot).isSome = true := by
  decide

set_option maxRecDepth 100000 in
theorem tables_paired :
    ∀ layer < layers, ∀ slot < slots,
      (kb_layout_press_get layer slot).bind paired_release
        = kb_layout_release_get layer slot := by
  decide

theorem paired_release_spec (p r : void_funptr_t)
    (h : paired_release p = some r) :
    ((p = kprrel ∨ p = sinvert ∨ p = s2kcap ∨ p = mprrel ∨ p = ktrans ∨ p = NULL)
        → r = p)
    ∧ (p = lpush1 → r = lpop1)
    ∧ ((p = ltog2 ∨ p = ltog3 ∨ p = ltog4 ∨ p = ltog5 ∨ p = lpop) → r = NULL)
    ∧ (p = kprrel ∨ p = sinvert ∨ p = s2kcap ∨ p = mprrel ∨ p = ktrans
        ∨ p = NULL ∨ p = lpush1 ∨ p = ltog2 ∨ p = ltog3 ∨ p = ltog4
        ∨ p = ltog5 ∨ p = lpop)
    ∧ (p = sinvert ↔ r = sinvert) := by
  unfold paired_release at h
  split at h
  · rename_i h1
    have hr : r = p := (Option.some.inj h).symm
    subst hr
    refine ⟨fun _ => rfl, ?_, ?_, ?_, Iff.rfl⟩
    · intro hp
      subst hp
      revert h1
      decide
    · intro hp
      revert h1
      rcases hp with hp | hp | hp | hp | hp <;> subst hp <;> decide
    · rcases h1 with h1 | h1 | h1 | h1 | h1 | h1 <;> simp [h1]
  · rename_i h1
    split at h
    · rename_i h2
      have hr : r = lpop1 := (Option.some.inj h).symm
      subst hr
      subst h2
      refine ⟨fun hp => absurd hp h1, fun _ => rfl, ?_, by simp, by decide⟩
      decide
    · rename_i h2
      split at h
      · rename_i h3
        have hr : r = NULL := (Option.some.inj h).symm
        subst hr
        refine ⟨fun hp => absurd hp h1, fun hp => absurd hp h2, fun _ => rfl,
          ?_, ?_⟩
        · rcases h3 with h3 | h3 | h3 | h3 | h3 <;> simp [h3]
        · rcases h3 with h3 | h3 | h3 | h3 | h3 <;> subst h3 <;> decide
      · exact Option.noConfusion h

/-- C19: at every position of the tables (every layer 0 to 5, every slot of
`KB_MATRIX_LAYER`) the press action `p` and the release action `r` are paired:
where `p` is `kprrel`, `sinvert`, `s2kcap`, `mprrel`, `ktrans` or `NULL`, `r`
is the same; where `p` is `lpush1`, `r` is `lpop1`; where `p` is one of
`ltog2` .. `ltog5` or `lpop`, `r` is `NULL`; `p` is always one of these; and
`p` is `sinvert` exactly when `r` is. -/
theorem press_release_paired (layer slot : Nat) (hl : layer < layers)
    (hs : slot < slots) :
    ∃ p r, kb_layout_press_get layer slot = some p
      ∧ kb_layout_release_get layer slot = some r
      ∧ ((p = kprrel ∨ p = sinvert ∨ p = s2kcap ∨ p = mprrel ∨ p = ktrans
            ∨ p = NULL) → r = p)
      ∧ (p = lpush1 → r = lpop1)
      ∧ ((p = ltog2 ∨ p = ltog3 ∨ p = ltog4 ∨ p = ltog5 ∨ p = lpop) → r = NULL)
      ∧ (p = kprrel ∨ p = sinvert ∨ p = s2kcap ∨ p = mprrel ∨ p = ktrans
          ∨ p = NULL ∨ p = lpush1 ∨ p = ltog2 ∨ p = ltog3 ∨ p = ltog4
          ∨ p = ltog5 ∨ p = lpop)
      ∧ (p = sinvert ↔ r = sinvert) := by
  obtain ⟨_, h2, h3⟩ := tables_cover_positions layer hl slot hs
  obtain ⟨p, hp⟩ := Option.isSome_iff_exists.mp h2
  obtain ⟨r, hr⟩ := Option.isSome_iff_exists.mp h3
  have hpair := tables_paired layer hl slot hs
  rw [hp, hr] at hpair
  exact ⟨p, r, hp, hr, paired_release_spec p r hpair⟩

/-- C19 (witness): the first `lpush1` position of layer 0 (slot 14). -/
theorem press_release_paired_witness :
    (0 < layers ∧ 14 < slots)
    ∧ kb_layout_press_get 0 14 = some lpush1
    ∧ kb_layout_release_get 0 14 = some lpop1
    ∧ ∃ p r, kb_layout_press_get 0 14 = some p
      ∧ kb_layout_release_get 0 14 = some r
      ∧ ((p = kprrel ∨ p = sinvert ∨ p = s2kcap ∨ p = mprrel ∨ p = ktrans
            ∨ p = NULL) → r = p)
      ∧ (p = lpush1 → r = lpop1)
      ∧ ((p = ltog2 ∨ p = ltog3 ∨ p = ltog4 ∨ p = ltog5 ∨ p = lpop) → r = NULL)
      ∧ (p = kprrel ∨ p = sinvert ∨ p = s2kcap ∨ p = mprrel ∨ p = ktrans
          ∨ p = NULL ∨ p = lpush1 ∨ p = ltog2 ∨ p = ltog3 ∨ p = ltog4
          ∨ p = ltog5 ∨ p = lpop)
      ∧ (p = sinvert ↔ r = sinvert) :=
  ⟨by decide, by decide, by decide,
   press_release_paired 0 14 (by decide) (by decide)⟩

/-! ## The Shift keys of the layout -/

set_option maxRecDepth 100000 in
theorem engine_positions_plain :
    ∀ layer < layers, ∀ slot < slots,
      (kb_layout_press_get layer slot = some kprrel
          ∨ kb_layout_release_get layer slot = some kprrel
          ∨ kb_layout_press_get layer slot = some sinvert
          ∨ kb_layout_release_get layer slot = some sinvert) →
        plain_code (kb_layout_get layer slot) := by
  decide

set_option maxRecDepth 100000 in
theorem shift_positions_eq : shift_positions = [(0, 21), (0, 67)] := by
  decide

theorem plain_code_value (mv : MediaKey → Nat) (c : Code)
    (h : plain_code (some c)) :
    c.value mv ≠ KEY_LeftShift ∧ c.value mv ≠ KEY_RightShift := by
  cases c with
  | usb n => exact h
  | media k => exact False.elim h

theorem sinvert_keeps_booleans (is_pressed : Bool) (keycode : Nat) (s : KB) :
    (kbfun_shift_inverted_press_release is_pressed keycode s).physical_lshift_pressed
        = s.physical_lshift_pressed
    ∧ (kbfun_shift_inverted_press_release is_pressed keycode s).physical_rshift_pressed
        = s.physical_rshift_pressed := by
  cases is_pressed
  · rw [sinvert_release_eq]
    exact ⟨rfl, rfl⟩
  · rw [sinvert_press_eq]
    exact ⟨rfl, rfl⟩

theorem kprrel_keeps_booleans (is_pressed : Bool) (keycode : Nat) (s : KB)
    (hl : keycode ≠ KEY_LeftShift) (hr : keycode ≠ KEY_RightShift) :
    (kbfun_press_release_supporting_shift_inversion is_pressed keycode s).physical_lshift_pressed
        = s.physical_lshift_pressed
    ∧ (kbfun_press_release_supporting_shift_inversion is_pressed keycode s).physical_rshift_pressed
        = s.physical_rshift_pressed := by
  by_cases hc : keycode = KEY_CapsLock ∨ keycode = KEYPAD_NumLock_Clear
  · rw [kprrel_lock_eq is_pressed keycode s hc]
    exact ⟨rfl, rfl⟩
  · rw [not_or] at hc
    rw [kprrel_other_eq is_pressed keycode s hl hr hc.1 hc.2]
    exact ⟨rfl, rfl⟩

theorem action_of_kprrel (ev : ScanEvent) (h : action_of ev = some kprrel) :
    kb_layout_press_get ev.layer ev.slot = some kprrel
      ∨ kb_layout_release_get ev.layer ev.slot = some kprrel := by
  unfold action_of at h
  split at h
  · exact Or.inl h
  · exact Or.inr h

theorem no_shift_branch (mv : MediaKey → Nat) (ev : ScanEvent)
    (hv : ev.valid) : ¬ takes_shift_branch mv ev := by
  rintro ⟨ha, c, hc, hshift⟩
  have hplain := engine_positions_plain ev.layer hv.1 ev.slot hv.2
    ((action_of_kprrel ev ha).elim Or.inl (fun h => Or.inr (Or.inl h)))
  rw [hc] at hplain
  obtain ⟨hl, hr⟩ := plain_code_value mv c hplain
  exact hshift.elim hl hr

theorem dispatch_keeps_booleans (mv : MediaKey → Nat)
    (other : Kbfun → Bool → Code → KB → List Emit) (s : KB) (ev : ScanEvent)
    (hv : ev.valid) :
    (dispatch mv other s ev).physical_lshift_pressed = s.physical_lshift_pressed
    ∧ (dispatch mv other s ev).physical_rshift_pressed
        = s.physical_rshift_pressed := by
  unfold dispatch
  split
  · exact sinvert_keeps_booleans _ _ _
  · rename_i c ha hc
    have hns := no_shift_branch mv ev hv
    have hl : c.value mv ≠ KEY_LeftShift :=
      fun h => hns ⟨ha, c, hc, Or.inl h⟩
    have hr : c.value mv ≠ KEY_RightShift :=
      fun h => hns ⟨ha, c, hc, Or.inr h⟩
    exact kprrel_keeps_booleans _ _ _ hl hr
  · exact ⟨rfl, rfl⟩
  · exact ⟨rfl, rfl⟩

theorem run_dispatch_keeps_booleans (mv : MediaKey → Nat)
    (other : Kbfun → Bool → Code → KB → List Emit) (evs : List ScanEvent) :
    ∀ (s : KB), (∀ ev ∈ evs, ev.valid) →
      (evs.foldl (dispatch mv other) s).physical_lshift_pressed
          = s.physical_lshift_pressed
      ∧ (evs.foldl (dispatch mv other) s).physical_rshift_pressed
          = s.physical_rshift_pressed := by
  induction evs with
  | nil =>
    intro s _
    exact ⟨rfl, rfl⟩
  | cons ev evs ih =>
    intro s hv
    have h1 := dispatch_keeps_booleans mv other s ev (hv ev (List.mem_cons_self _ _))
    have h2 := ih (dispatch mv other s ev)
      (fun e he => hv e (List.mem_cons_of_mem _ he))
    exact ⟨h2.1.trans h1.1, h2.2.trans h1.2⟩

/-- C20: the positions of the tables whose keycode is Left Shift or Right
Shift are exactly two, both in layer 0, and both tables hold `s2kcap` there,
not `kprrel`.  Consequently, for every sequence of events for positions of
the tables, dispatched through the tables from power-on, no event makes
`kbfun_press_release_supporting_shift_inversion` run on a Shift keycode, and
`physical_lshift_pressed` and `physical_rshift_pressed` are both false at the
end. -/
theorem shift_keys_bypass_engine (mv : MediaKey → Nat)
    (other : Kbfun → Bool → Code → KB → List Emit) (evs : List ScanEvent)
    (hv : ∀ ev ∈ evs, ev.valid) :
    shift_positions = [(0, 21), (0, 67)]
    ∧ (∀ p ∈ shift_positions,
        kb_layout_press_get p.1 p.2 = some s2kcap
          ∧ kb_layout_release_get p.1 p.2 = some s2kcap)
    ∧ (∀ ev ∈ evs, ¬ takes_shift_branch mv ev)
    ∧ (evs.foldl (dispatch mv other) init).physical_lshift_pressed = false
    ∧ (evs.foldl (dispatch mv other) init).physical_rshift_pressed = false := by
  refine ⟨shift_positions_eq, ?_, fun ev hev => no_shift_branch mv ev (hv ev hev),
    (run_dispatch_keeps_booleans mv other evs init hv).1,
    (run_dispatch_keeps_booleans mv other evs init hv).2⟩
  rw [shift_positions_eq]
  decide

/-- C20 (witness): Left Shift (layer 0, slot 21) is pressed, the `1 !` key
(layer 0, slot 2) is pressed and released, Left Shift is released; the media
keys all have value 0 and the other key functions emit nothing. -/
theorem shift_keys_bypass_engine_witness :
    (∀ ev ∈ [(⟨true, 0, 21⟩ : ScanEvent), ⟨true, 0, 2⟩, ⟨false, 0, 2⟩,
        ⟨false, 0, 21⟩], ev.valid)
    ∧ ([(⟨true, 0, 21⟩ : ScanEvent), ⟨true, 0, 2⟩, ⟨false, 0, 2⟩,
          ⟨false, 0, 21⟩].foldl
        (dispatch (fun _ => 0) (fun _ _ _ _ => [])) init).physical_lshift_pressed
        = false :=
  ⟨by decide,
   (shift_keys_bypass_engine (fun _ => 0) (fun _ _ _ _ => [])
      [⟨true, 0, 21⟩, ⟨true, 0, 2⟩, ⟨false, 0, 2⟩, ⟨false, 0, 21⟩]
      (by decide)).2.2.2.1⟩

/-! ## Forcing twice -/

theorem invert_shift_state_eq (s : KB) :
    _kbfun_invert_shift_state s =
      { s with emitted := s.emitted ++
          invert_pair s.physical_lshift_pressed s.physical_rshift_pressed } := by
  simp [_kbfun_invert_shift_state, _kbfun_press_release, invert_pair]

/-- C18: take a state with counter at least 1 whose Shift lines are in the
forced inverted state, and an inverted key of the layout (a position whose
press action is `sinvert`, with its keycode).  The press of that key leaves
the emitted Left Shift and Right Shift states as they were; and in every
state, the emitted Shift states after `_kbfun_invert_shift_state` applied
twice are those after it applied once. -/
theorem reforcing_idempotent (layer slot keycode : Nat) (s : KB)
    (hl : layer < layers) (hs : slot < slots)
    (hp : kb_layout_press_get layer slot = some sinvert)
    (hk : kb_layout_get layer slot = some (Code.usb keycode))
    (_h1 : 1 ≤ s.inverted_keys_pressed) (hf : forced s) :
    lshift_line (kbfun_shift_inverted_press_release true keycode s)
        = lshift_line s
    ∧ rshift_line (kbfun_shift_inverted_press_release true keycode s)
        = rshift_line s
    ∧ lshift_line (_kbfun_invert_shift_state (_kbfun_invert_shift_state s))
        = lshift_line (_kbfun_invert_shift_state s)
    ∧ rshift_line (_kbfun_invert_shift_state (_kbfun_invert_shift_state s))
        = rshift_line (_kbfun_invert_shift_state s) := by
  have hplain := engine_positions_plain layer hl slot hs
    (Or.inr (Or.inr (Or.inl hp)))
  rw [hk] at hplain
  have hkl : keycode ≠ 225 := hplain.1
  have hkr : keycode ≠ 229 := hplain.2
  obtain ⟨hfl, hfr⟩ := hf
  refine ⟨?_, ?_, ?_, ?_⟩
  · rw [hfl]
    simp [sinvert_press_eq, invert_pair, lshift_line, line_state_append,
      apply_emit, hkl, KEY_LeftShift, KEY_RightShift]
  · rw [hfr]
    simp [sinvert_press_eq, invert_pair, rshift_line, line_state_append,
      apply_emit, hkr, KEY_LeftShift, KEY_RightShift]
  · simp [invert_shift_state_eq, invert_pair, lshift_line, line_state_append,
      apply_emit, KEY_LeftShift, KEY_RightShift]
  · simp [invert_shift_state_eq, invert_pair, rshift_line, line_state_append,
      apply_emit, KEY_LeftShift, KEY_RightShift]

/-- C18 (witness): the `1 !` key is held and the `2 @` key (layer 0, slot 3)
is pressed. -/
theorem reforcing_idempotent_witness :
    (0 < layers ∧ 3 < slots
      ∧ kb_layout_press_get 0 3 = some sinvert
      ∧ kb_layout_get 0 3 = some (Code.usb KEY_2_At)
      ∧ 1 ≤ (run init (press_many 1)).inverted_keys_pressed
      ∧ forced (run init (press_many 1)))
    ∧ lshift_line (kbfun_shift_inverted_press_release true KEY_2_At
        (run init (press_many 1)))
        = lshift_line (run init (press_many 1)) :=
  ⟨by decide,
   (reforcing_idempotent 0 3 KEY_2_At (run init (press_many 1)) (by decide)
      (by decide) (by decide) (by decide) (by decide) (by decide)).1⟩

/-! ## Inverted keys and the conversion layer -/

set_option maxRecDepth 100000 in
theorem inverted_positions_eq :
    inverted_positions
      = [(0, 2), (0, 3), (0, 4), (0, 5), (0, 6),
         (0, 42), (0, 43), (0, 44), (0, 45), (0, 46)] := by
  decide

set_option maxRecDepth 100000 in
theorem layer4_undoes_inversion :
    ∀ slot < slots,
      ((kb_layout_press_get 4 slot ≠ some ktrans
            ∧ kb_layout_press_get 4 slot ≠ some NULL)
          ↔ kb_layout_press_get 0 slot = some sinvert)
      ∧ (kb_layout_press_get 4 slot = some NULL
          ↔ kb_layout_press_get 0 slot = some NULL)
      ∧ (kb_layout_press_get 0 slot = some sinvert →
          kb_layout_get 4 slot = kb_layout_get 0 slot
            ∧ kb_layout_press_get 4 slot = some kprrel
            ∧ kb_layout_release_get 4 slot = some kprrel) := by
  decide

/-- C21 (as amended): the positions at which a table holds `sinvert` are
exactly ten, all in layer 0, and their keycodes are the digit keys
`KEY_1_Exclamation` .. `KEY_0_RightParenthesis`, in this order.  Layer 4
undoes exactly those: a position of layer 4 is neither transparent nor
without a key (`NULL`) iff its layer-0 press action is `sinvert`; it is
without a key iff it is so in layer 0; and at each position that is `sinvert`
in layer 0, layer 4 has the keycode of layer 0 with `kprrel` as press and as
release action. -/
theorem inverted_keys_and_layer4 (slot : Nat) (hs : slot < slots) :
    inverted_positions
        = [(0, 2), (0, 3), (0, 4), (0, 5), (0, 6),
           (0, 42), (0, 43), (0, 44), (0, 45), (0, 46)]
    ∧ inverted_positions.map (fun p => kb_layout_get p.1 p.2)
        = [some (Code.usb KEY_1_Exclamation), some (Code.usb KEY_2_At),
           some (Code.usb KEY_3_Pound), some (Code.usb KEY_4_Dollar),
           some (Code.usb KEY_5_Percent), some (Code.usb KEY_6_Caret),
           some (Code.usb KEY_7_Ampersand), some (Code.usb KEY_8_Asterisk),
           some (Code.usb KEY_9_LeftParenthesis),
           some (Code.usb KEY_0_RightParenthesis)]
    ∧ ((kb_layout_press_get 4 slot ≠ some ktrans
            ∧ kb_layout_press_get 4 slot ≠ some NULL)
          ↔ kb_layout_press_get 0 slot = some sinvert)
    ∧ (kb_layout_press_get 4 slot = some NULL
          ↔ kb_layout_press_get 0 slot = some NULL)
    ∧ (kb_layout_press_get 0 slot = some sinvert →
          kb_layout_get 4 slot = kb_layout_get 0 slot
            ∧ kb_layout_press_get 4 slot = some kprrel
            ∧ kb_layout_release_get 4 slot = some kprrel) := by
  refine ⟨inverted_positions_eq, ?_, layer4_undoes_inversion slot hs⟩
  rw [inverted_positions_eq]
  decide

/-- C21 (witness): the slot of the `1 !` key. -/
theorem inverted_keys_and_layer4_witness :
    2 < slots
    ∧ kb_layout_press_get 0 2 = some sinvert
    ∧ kb_layout_get 4 2 = kb_layout_get 0 2
    ∧ kb_layout_press_get 4 2 = some kprrel
    ∧ kb_layout_release_get 4 2 = some kprrel :=
  ⟨by decide, by decide,
   (inverted_keys_and_layer4 2 (by decide)).2.2.2.2 (by decide)⟩

/-- C21 (counterexample): slot 35, a position of the left thumb without a
key, holds `NULL` in the press table of layer 4, so it is not transparent
there, and its layer-0 press action is `NULL`, not `sinvert`; the same holds
for slot 0, the entry for the unused matrix positions. -/
theorem layer4_null_position :
    (kb_layout_press_get 4 35 = some NULL
      ∧ kb_layout_press_get 4 35 ≠ some ktrans
      ∧ kb_layout_press_get 0 35 ≠ some sinvert)
    ∧ (kb_layout_press_get 4 0 = some NULL
      ∧ kb_layout_press_get 4 0 ≠ some ktrans
      ∧ kb_layout_press_get 0 0 ≠ some sinvert) := by
  decide

end Ergodox
